import Mathlib

/-!
Study-group matcher: client-side scoring, naming, date ranges and fetch handling

A shallow embedding of `static/js/find.js`, of the fetch, search and name
helpers of `static/js/my-groups.js` and of the form validation of
`static/js/create.js`, followed by the properties proved about them.

Modelling conventions

* A JavaScript string is a Lean `String`; strict equality `===` on strings is `=`.
* A `Date` is its time value: milliseconds since the epoch as an `Int`, and
  `none` for an Invalid Date (`NaN`), for which every relational comparison is
  false.
* Local time is UTC plus a fixed offset `tz` (in milliseconds); in such a zone
  `d.setDate(d.getDate() + k)` moves the time value by `k` whole days.
* `current_members` and `max_members` are non-negative integers.
-/

namespace StudyGroup

/-! ## Data model -/

/-- A group record as the backend sends it.  `date` and `created_at` hold the
time value that `new Date(...)` yields for the field (`none`: Invalid Date);
`location` is `none` when the field is missing or null. -/
structure Group where
  id : String
  subject : String
  goal : String
  date : Option Int
  time : String := ""
  location : Option String := none
  current_members : Nat
  max_members : Nat
  created_at : Option Int := none
  deriving DecidableEq, Repr

/-- The filter state read from the three dropdowns. -/
structure UserFilters where
  subject : String
  goal : String
  date : String
  deriving DecidableEq, Repr

/-- The object `{ ...group, matchScore }` built by the scorer. -/
structure ScoredGroup where
  group : Group
  matchScore : Nat
  deriving DecidableEq, Repr

/-! ## Dates -/

/-- Milliseconds in a day. -/
def msPerDay : Int := 86400000

/-- Time value of a date-only ISO string `YYYY-MM-DD` whose day is `day` days
after 1970-01-01: such strings are parsed as UTC midnight. -/
def dateOnly (day : Int) : Option Int := some (day * msPerDay)

/-- Method `Date.prototype.getDay` in the zone with offset `tz`: 0 is Sunday, and
1970-01-01 was a Thursday. -/
def getDay (tz t : Int) : Int := ((t + tz) / msPerDay + 4) % 7

/-- Comparison `a >= b` on two dates, the left one possibly invalid. -/
def dateGe (a : Option Int) (b : Int) : Bool :=
  match a with
  | none => false
  | some x => decide (b ≤ x)

/-- Comparison `a <= b` on two dates, the left one possibly invalid. -/
def dateLe (a : Option Int) (b : Int) : Bool :=
  match a with
  | none => false
  | some x => decide (x ≤ b)

/-- Function `isDateInRange(groupDate, range)` of `find.js`, with the clock reading
`now` (the value of `new Date()`) and the zone offset made explicit. -/
def isDateInRange (tz now : Int) (groupDate : Option Int) (range : String) : Bool :=
  let today := now
  let groupDateObj := groupDate
  let startOfWeek := today - getDay tz today * msPerDay
  let endOfThisWeek := startOfWeek + 6 * msPerDay
  let startOfNextWeek := endOfThisWeek + 1 * msPerDay
  let endOfNextWeek := startOfNextWeek + 6 * msPerDay
  if range = "thisWeek" then
    dateGe groupDateObj startOfWeek && dateLe groupDateObj endOfThisWeek
  else if range = "nextWeek" then
    dateGe groupDateObj startOfNextWeek && dateLe groupDateObj endOfNextWeek
  else
    true

/-! ## Recommendation scorer -/

/-- The callback of `allGroups.map(...)` in `getAIRecommendations`: the score
starts at 0 and each test that succeeds adds its points. -/
def scoreGroup (tz now : Int) (userFilters : UserFilters) (group : Group) : ScoredGroup :=
  let matchScore : Nat := 0
  let matchScore :=
    if userFilters.subject ≠ "all" ∧ group.subject = userFilters.subject then matchScore + 5
    else matchScore
  let matchScore :=
    if userFilters.goal ≠ "all" ∧ group.goal = userFilters.goal then matchScore + 3
    else matchScore
  let matchScore :=
    if userFilters.date ≠ "all" ∧ isDateInRange tz now group.date userFilters.date = true then
      matchScore + 2
    else matchScore
  let matchScore :=
    if group.current_members < group.max_members then matchScore + 1 else matchScore
  { group := group, matchScore := matchScore }

/-- Insertion of `a` in front of the first element it does not have to follow
under the comparator `cmp` (negative or zero: `a` stays first). -/
def insertBy {α : Type} (cmp : α → α → Int) (a : α) : List α → List α
  | [] => [a]
  | b :: l => if cmp a b ≤ 0 then a :: b :: l else b :: insertBy cmp a l

/-- Method `Array.prototype.sort(cmp)`: a stable sort, so elements the comparator
does not separate keep their input order. -/
def sortBy {α : Type} (cmp : α → α → Int) : List α → List α
  | [] => []
  | a :: l => insertBy cmp a (sortBy cmp l)

/-- The comparator `(a, b) => b.matchScore - a.matchScore`. -/
def byScoreDesc (a b : ScoredGroup) : Int := (b.matchScore : Int) - (a.matchScore : Int)

/-- Function `getAIRecommendations(userFilters, allGroups)`; `none` is an absent
(null or undefined) group list. -/
def getAIRecommendations (tz now : Int) (userFilters : UserFilters)
    (allGroups : Option (List Group)) : List ScoredGroup :=
  match allGroups with
  | none => []
  | some gs =>
    if gs.length = 0 then []
    else
      let scoredGroups := gs.map (scoreGroup tz now userFilters)
      (sortBy byScoreDesc scoredGroups).take 2

/-! ### Reading of the scoring rule as four independent bonuses -/

/-- Points of one criterion: `pts` when it holds, nothing otherwise. -/
def bonus (holds : Bool) (pts : Nat) : Nat := if holds then pts else 0

/-- Subject criterion: the filter is active and the group has that subject. -/
def subjectMatches (f : UserFilters) (g : Group) : Bool :=
  decide (f.subject ≠ "all") && decide (f.subject = g.subject)

/-- Goal criterion: the filter is active and the group has that goal. -/
def goalMatches (f : UserFilters) (g : Group) : Bool :=
  decide (f.goal ≠ "all") && decide (f.goal = g.goal)

/-- Date criterion: the filter is active and the group's date is in range. -/
def dateMatches (tz now : Int) (f : UserFilters) (g : Group) : Bool :=
  decide (f.date ≠ "all") && isDateInRange tz now g.date f.date

/-- Availability: the group still has a free seat. -/
def notFull (g : Group) : Bool := decide (g.current_members < g.max_members)

/-- The sum of the four bonuses 5, 3, 2 and 1. -/
def bonusSum (tz now : Int) (f : UserFilters) (g : Group) : Nat :=
  bonus (subjectMatches f g) 5 + bonus (goalMatches f g) 3
    + bonus (dateMatches tz now f g) 2 + bonus (notFull g) 1

/-- First group of the worked example: math101 / midterm on 2024-01-01, 1 of 5. -/
def exampleGroup1 : Group :=
  { id := "1", subject := "math101", goal := "midterm", date := dateOnly 19723,
    current_members := 1, max_members := 5 }

/-- Second group of the worked example: x / y on 2024-01-01, 5 of 5. -/
def exampleGroup2 : Group :=
  { id := "2", subject := "x", goal := "y", date := dateOnly 19723,
    current_members := 5, max_members := 5 }

/-- Filters of the worked example. -/
def exampleFilters : UserFilters := { subject := "math101", goal := "midterm", date := "all" }

/-- Number of active (non-'all') subject, goal and date criteria a group matches. -/
def matchCount (tz now : Int) (f : UserFilters) (g : Group) : Nat :=
  (subjectMatches f g).toNat + (goalMatches f g).toNat + (dateMatches tz now f g).toNat

/-! ## Naming resolver -/

/-- What `table[code] || fallback` evaluates to: a display string, or, when
`code` names a property every object inherits, that inherited value (a
function or object, not a string). -/
inductive NameResult where
  | text (s : String)
  | inherited (key : String)
  deriving DecidableEq, Repr

/-- Names of the properties an object literal inherits from `Object.prototype`;
all of their values are truthy. -/
def objectPrototypeKeys : List String :=
  ["constructor", "__defineGetter__", "__defineSetter__", "hasOwnProperty",
   "__lookupGetter__", "__lookupSetter__", "isPrototypeOf", "propertyIsEnumerable",
   "toString", "valueOf", "__proto__", "toLocaleString"]

/-- Property read `table[code]` on an object literal: an own entry first, then
the prototype; `none` is `undefined`. -/
def lookupProp (table : List (String × String)) (code : String) : Option NameResult :=
  match table.lookup code with
  | some v => some (NameResult.text v)
  | none => if code ∈ objectPrototypeKeys then some (NameResult.inherited code) else none

/-- Truthiness of a looked-up value: only the empty string is falsy. -/
def truthy : NameResult → Bool
  | NameResult.text s => decide (s ≠ "")
  | NameResult.inherited _ => true

/-- The table `subjectMap` of `formatSubjectName`. -/
def subjectMap : List (String × String) :=
  [("math101", "Math 101"), ("prog101", "Programming Fundamentals"),
   ("bus101", "Business Ethics"), ("stats101", "Statistics 101"),
   ("eng101", "English Literature"), ("phy101", "Physics 101"),
   ("chem101", "Chemistry 101"), ("bio101", "Biology 101"),
   ("eco101", "Economics 101"), ("acc101", "Accounting 101")]

/-- The table `goalMap` of `formatGoalName`. -/
def goalMap : List (String × String) :=
  [("midterm", "Midterm Review"), ("homework", "Homework Help"),
   ("project", "Project Discussion"), ("final", "Final Exam Prep"),
   ("assignment", "Assignment Help"), ("presentation", "Presentation Practice"),
   ("study", "General Study Session")]

/-- The character class `[A-Z]`. -/
def isCapital (c : Char) : Bool := decide (65 ≤ c.toNat) && decide (c.toNat ≤ 90)

/-- The characters `.` does not match: LF, CR, U+2028 and U+2029. -/
def isLineTerminator (c : Char) : Bool :=
  decide (c.toNat = 10) || decide (c.toNat = 13) || decide (c.toNat = 8232)
    || decide (c.toNat = 8233)

/-- Replacement `s.replace(/([A-Z])/g, ' $1')`: a space goes in front of every capital. -/
def spaceBeforeCapitals : List Char → List Char
  | [] => []
  | c :: rest =>
    if isCapital c then ' ' :: c :: spaceBeforeCapitals rest
    else c :: spaceBeforeCapitals rest

/-- Replacement `s.replace(/^./, str => str.toUpperCase())`, where `upper` is
`toUpperCase` on a one-unit string.  The pattern matches the first UTF-16 unit
unless it is a line terminator; for a character outside the basic plane that
unit is a lone surrogate, which upper-casing leaves alone. -/
def upperFirst (upper : Char → String) : List Char → List Char
  | [] => []
  | c :: rest =>
    if isLineTerminator c then c :: rest
    else if 65536 ≤ c.toNat then c :: rest
    else (upper c).toList ++ rest

/-- The fallback `code.replace(/([A-Z])/g, ' $1').replace(/^./, ...)`. -/
def humanize (upper : Char → String) (code : String) : String :=
  String.mk (upperFirst upper (spaceBeforeCapitals code.toList))

/-- Function `formatSubjectName(subjectCode)` of `find.js`. -/
def formatSubjectName (upper : Char → String) (subjectCode : String) : NameResult :=
  match lookupProp subjectMap subjectCode with
  | some v => if truthy v then v else NameResult.text (humanize upper subjectCode)
  | none => NameResult.text (humanize upper subjectCode)

/-- Function `formatGoalName(goalCode)` of `find.js`. -/
def formatGoalName (upper : Char → String) (goalCode : String) : NameResult :=
  match lookupProp goalMap goalCode with
  | some v => if truthy v then v else NameResult.text (humanize upper goalCode)
  | none => NameResult.text (humanize upper goalCode)

/-- Method `toUpperCase` on the ASCII range, where it maps `a`..`z` to `A`..`Z` and
leaves the rest alone; used to evaluate the resolvers on ASCII codes. -/
def asciiUpper (c : Char) : String := String.singleton c.toUpper

/-! ## Query building and response handling of `loadAndDisplayGroups` -/

/-- The `URLSearchParams` list `loadAndDisplayGroups` builds from the three
dropdown values: a field is appended when its value is truthy (non-empty) and
is not `all`. -/
def buildParams (f : UserFilters) : List (String × String) :=
  let filterSubject := f.subject
  let filterDate := f.date
  let filterGoal := f.goal
  let params : List (String × String) := []
  let params :=
    if filterSubject ≠ "" ∧ filterSubject ≠ "all" then params ++ [("subject", filterSubject)]
    else params
  let params :=
    if filterGoal ≠ "" ∧ filterGoal ≠ "all" then params ++ [("goal", filterGoal)]
    else params
  let params :=
    if filterDate ≠ "" ∧ filterDate ≠ "all" then params ++ [("date", filterDate)]
    else params
  params

/-- The request URL of the template literal, `serialize` being
`URLSearchParams.prototype.toString`. -/
def findGroupUrl (serialize : List (String × String) → String)
    (params : List (String × String)) : String :=
  "/find-group?" ++ serialize params ++ "&format=json"

/-- Method `s.startsWith(p)`. -/
def startsWith (s p : String) : Bool := p.toList.isPrefixOf s.toList

/-- Method `s.includes(sub)`. -/
def includes (s sub : String) : Bool :=
  s.toList.tails.any (fun t => sub.toList.isPrefixOf t)

/-- A response as the handler sees it: status, `content-type` header (`none`
when absent) and body text. -/
structure Response where
  status : Nat
  contentType : Option String
  body : String
  deriving DecidableEq, Repr

/-- Property `response.ok`: the status is in 200..299. -/
def Response.ok (r : Response) : Bool := decide (200 ≤ r.status) && decide (r.status ≤ 299)

/-- A parsed JSON value as far as the handler distinguishes it: `null`, an
array of group records, or any other value together with whether its `length`
property is `0` (as for the empty string). -/
inductive Json where
  | null
  | groups (gs : List Group)
  | other (lengthIsZero : Bool)
  deriving DecidableEq, Repr

/-- The exceptions that can travel down the promise chain. -/
inductive JsError where
  | error (message : String)
  | jsonSyntaxError (message : String)
  | typeError (message : String)
  deriving DecidableEq, Repr

/-- What a handler does to the page.  Besides the effects of the browse fetch:
`alert(message)`; the calls `loadAndDisplayGroups()` and
`generateAIRecommendations()` that start a new fetch; the notice
`Please join a group or create an account ...` written to the recommendation
panel; the call `displayAIRecommendations(v)`; and, on the my-groups page, the
assignment `allGroups = v`, the `You haven't joined or created any groups yet`
message, the call `displayGroups(v)`, the `Error loading your groups` message
and `location.reload()`. -/
inductive Effect where
  | showLoading
  | redirectToLogin
  | displayGroups (v : Json)
  | showLoadError
  | consoleError (e : JsError)
  | alert (message : String)
  | refreshGroups
  | refreshRecommendations
  | showRecommendationNotice
  | displayAIRecommendations (v : Json)
  | storeAllGroups (v : Json)
  | showMyGroupsEmpty
  | displayMyGroups (v : Json)
  | showMyGroupsError
  | reloadPage
  deriving DecidableEq, Repr

/-- Outcome of `fetch`: rejected (network failure) or fulfilled with a response. -/
inductive FetchResult where
  | failed
  | response (r : Response)
  deriving DecidableEq, Repr

/-- Calls `response.json()` and `JSON.parse(text)`: the engine's parser `parse`
gives the value or the message of the `SyntaxError` it raises. -/
def parseJson (parse : String → Except String Json) (text : String) : Except JsError Json :=
  match parse text with
  | Except.ok v => Except.ok v
  | Except.error msg => Except.error (JsError.jsonSyntaxError msg)

/-- The test `contentType && contentType.includes('application/json')`. -/
def isJsonContentType (contentType : Option String) : Bool :=
  match contentType with
  | none => false
  | some ct => decide (ct ≠ "") && includes ct "application/json"

/-- First `.then` of `loadAndDisplayGroups`: the effects it performs and the
value it returns (`Json.null` for `return null`) or the exception it throws. -/
def onResponse (parse : String → Except String Json) (response : Response) :
    List Effect × Except JsError Json :=
  if !response.ok then
    if response.status = 401 then
      ([Effect.redirectToLogin], Except.ok Json.null)
    else
      ([], Except.error (JsError.error "Network response was not ok"))
  else
    let contentType := response.contentType
    if isJsonContentType contentType then
      ([], parseJson parse response.body)
    else
      let responseText := response.body
      if startsWith responseText "<!DOCTYPE" || startsWith responseText "<html" then
        ([Effect.redirectToLogin], Except.ok Json.null)
      else
        ([], parseJson parse responseText)

/-- Whether `displayGroups(v)` raises: a value that is not an array has no
`forEach`, which is reached unless its `length` is `0`. -/
def displayGroupsThrows : Json → Bool
  | Json.other false => true
  | _ => false

/-- Second `.then`: nothing on `null`, otherwise the call `displayGroups(groups)`. -/
def onGroups (groups : Json) : List Effect × Except JsError Unit :=
  if groups = Json.null then
    ([], Except.ok ())
  else if displayGroupsThrows groups then
    ([Effect.displayGroups groups],
      Except.error (JsError.typeError "groups.forEach is not a function"))
  else
    ([Effect.displayGroups groups], Except.ok ())

/-- The `.catch` of `loadAndDisplayGroups`. -/
def onError (error : JsError) : List Effect :=
  Effect.consoleError error ::
    (match error with
     | JsError.jsonSyntaxError message =>
       if includes message "Unexpected token" then [Effect.redirectToLogin]
       else [Effect.showLoadError]
     | _ => [Effect.showLoadError])

/-- The promise chain of `loadAndDisplayGroups` run on the outcome of `fetch`,
as the list of effects in the order they happen. -/
def loadAndDisplayGroups (parse : String → Except String Json) (result : FetchResult) :
    List Effect :=
  Effect.showLoading ::
    (match result with
     | FetchResult.failed => onError (JsError.typeError "Failed to fetch")
     | FetchResult.response r =>
       match onResponse parse r with
       | (eff1, Except.error e) => eff1 ++ onError e
       | (eff1, Except.ok groups) =>
         match onGroups groups with
         | (eff2, Except.error e) => eff1 ++ eff2 ++ onError e
         | (eff2, Except.ok _) => eff1 ++ eff2)

/-- Wednesday 2024-01-03 15:00 UTC, as a clock reading. -/
def wednesdayAfternoon : Int := 19725 * msPerDay + 15 * 3600000

/-- Wednesday 2024-01-03 00:00 UTC, as a clock reading. -/
def wednesdayMidnight : Int := 19725 * msPerDay

/-- A parser for evaluation that knows the body `[]` only. -/
def sampleParse (text : String) : Except String Json :=
  if text = "[]" then Except.ok (Json.groups [])
  else Except.error "Unexpected token"

/-- A full group that matches only the goal of the example filters. -/
def goalOnlyGroup : Group :=
  { id := "3", subject := "x", goal := "midterm", date := dateOnly 19723,
    current_members := 5, max_members := 5 }

/-- A full group that matches only the subject of the example filters. -/
def subjectOnlyGroup : Group :=
  { id := "4", subject := "math101", goal := "y", date := dateOnly 19723,
    current_members := 5, max_members := 5 }

/-- The first example group once its last seat is taken. -/
def exampleGroup1Full : Group :=
  { id := "5", subject := "math101", goal := "midterm", date := dateOnly 19723,
    current_members := 5, max_members := 5 }

/-- A parser for evaluation with the messages of a V8 engine: it knows the
body `[]`, reports an unexpected token for `oops` and for markup, and an
unexpected end of input otherwise. -/
def chromeParse (text : String) : Except String Json :=
  if text = "[]" then Except.ok (Json.groups [])
  else if text = "oops" then Except.error "Unexpected token o in JSON at position 0"
  else if startsWith text "<" then Except.error "Unexpected token < in JSON at position 0"
  else Except.error "Unexpected end of JSON input"

/-- A server error page: status 500 with an HTML document as body. -/
def errorPage500 : Response :=
  { status := 500, contentType := some "text/html; charset=utf-8",
    body := "<!DOCTYPE html><html><body>Internal Server Error</body></html>" }

/-- A success response declared as JSON whose body is not valid JSON. -/
def malformedJson200 : Response :=
  { status := 200, contentType := some "application/json", body := "oops" }

/-- A success response declared as JSON with an empty body. -/
def emptyBody200 : Response :=
  { status := 200, contentType := some "application/json", body := "" }

/-- The login page served with status 200 after a followed redirect. -/
def loginPage200 : Response :=
  { status := 200, contentType := some "text/html; charset=utf-8",
    body := "<!DOCTYPE html><html><body>Please log in</body></html>" }

/-! ## The other callers of the backend: join, recommendations, my-groups, delete -/

/-- A JSON value that is neither `null` nor an array, seen through the
properties the handlers read: `error` and `matched_groups` when present and
truthy, the truthiness of `success`, the text `message` concatenates to
(`undefined` when absent), and whether `length` is `0`. -/
structure JsonObject where
  error : Option String := none
  matched_groups : Option Json := none
  success : Bool := false
  message : String := "undefined"
  lengthIsZero : Bool := false
  deriving DecidableEq, Repr

/-- A parsed JSON body as the join, recommendation, my-groups and delete
handlers distinguish it. -/
inductive JsonValue where
  | null
  | array (gs : List Group)
  | object (o : JsonObject)
  deriving DecidableEq, Repr

/-- The same value as the browse handler sees it. -/
def JsonValue.toJson : JsonValue → Json
  | JsonValue.null => Json.null
  | JsonValue.array gs => Json.groups gs
  | JsonValue.object o => Json.other o.lengthIsZero

/-- The parser of the browse handler that goes with a parser of full values. -/
def browseParse (parse : String → Except String JsonValue) (text : String) :
    Except String Json :=
  match parse text with
  | Except.ok v => Except.ok v.toJson
  | Except.error msg => Except.error msg

/-- Calls `response.json()` and `JSON.parse(text)` on full values. -/
def parseJsonValue (parse : String → Except String JsonValue) (text : String) :
    Except JsError JsonValue :=
  match parse text with
  | Except.ok v => Except.ok v
  | Except.error msg => Except.error (JsError.jsonSyntaxError msg)

/-- The object `{ error: 'Not authenticated' }`. -/
def notAuthenticated : JsonValue :=
  JsonValue.object { error := some "Not authenticated" }

/-- First `.then` of `joinGroupBackend`. -/
def joinOnResponse (parse : String → Except String JsonValue) (response : Response) :
    List Effect × Except JsError JsonValue :=
  if !response.ok then
    if response.status = 401 then
      ([Effect.redirectToLogin], Except.ok notAuthenticated)
    else
      ([], Except.error (JsError.error "Network response was not ok"))
  else
    let contentType := response.contentType
    if isJsonContentType contentType then
      ([], parseJsonValue parse response.body)
    else
      let responseText := response.body
      if startsWith responseText "<!DOCTYPE" || startsWith responseText "<html" then
        ([Effect.redirectToLogin], Except.ok notAuthenticated)
      else
        ([], parseJsonValue parse responseText)

/-- The value of `data && data.error` when truthy. -/
def dataError : JsonValue → Option String
  | JsonValue.object o => o.error
  | _ => none

/-- Second `.then` of `joinGroupBackend`. -/
def joinOnData (groupId : String) (data : JsonValue) : List Effect :=
  match dataError data with
  | some e => [Effect.alert ("Error joining group: " ++ e)]
  | none =>
    [Effect.alert ("Success! You joined Group " ++ groupId), Effect.refreshGroups,
     Effect.refreshRecommendations]

/-- The `.catch` of `joinGroupBackend`. -/
def joinOnError (error : JsError) : List Effect :=
  Effect.consoleError error ::
    (match error with
     | JsError.jsonSyntaxError message =>
       if includes message "Unexpected token" then [Effect.redirectToLogin]
       else [Effect.alert "An error occurred while joining the group"]
     | _ => [Effect.alert "An error occurred while joining the group"])

/-- The promise chain of `joinGroupBackend(userId, groupId)` run on the outcome
of its `fetch`. -/
def joinGroupBackend (parse : String → Except String JsonValue) (userId : Option String)
    (groupId : String) (result : FetchResult) : List Effect :=
  match result with
  | FetchResult.failed => joinOnError (JsError.typeError "Failed to fetch")
  | FetchResult.response r =>
    match joinOnResponse parse r with
    | (eff1, Except.error e) => eff1 ++ joinOnError e
    | (eff1, Except.ok data) => eff1 ++ joinOnData groupId data

/-- First `.then` of `generateAIRecommendations`; on 401 and on an HTML page
it writes the notice and returns `[]`. -/
def recommendOnResponse (parse : String → Except String JsonValue) (response : Response) :
    List Effect × Except JsError JsonValue :=
  if !response.ok then
    if response.status = 401 then
      ([Effect.showRecommendationNotice], Except.ok (JsonValue.array []))
    else
      ([], Except.error (JsError.error "Network response was not ok"))
  else
    let contentType := response.contentType
    if isJsonContentType contentType then
      ([], parseJsonValue parse response.body)
    else
      let responseText := response.body
      if startsWith responseText "<!DOCTYPE" || startsWith responseText "<html" then
        ([Effect.showRecommendationNotice], Except.ok (JsonValue.array []))
      else
        ([], parseJsonValue parse responseText)

/-- The value of `data && data.matched_groups` when truthy. -/
def dataMatchedGroups : JsonValue → Option Json
  | JsonValue.object o =>
    match o.matched_groups with
    | some Json.null => none
    | other => other
  | _ => none

/-- Second `.then` of `generateAIRecommendations`: the renderer is called with
the matched groups, or with `[]`; it raises on a value that is not an array
unless its `length` is `0`. -/
def recommendOnData (data : JsonValue) : List Effect × Except JsError Unit :=
  match dataMatchedGroups data with
  | some v =>
    if displayGroupsThrows v then
      ([Effect.displayAIRecommendations v],
        Except.error (JsError.typeError "recommendations.forEach is not a function"))
    else
      ([Effect.displayAIRecommendations v], Except.ok ())
  | none => ([Effect.displayAIRecommendations (Json.groups [])], Except.ok ())

/-- The `.catch` of `generateAIRecommendations`. -/
def recommendOnError (error : JsError) : List Effect :=
  Effect.consoleError error ::
    (match error with
     | JsError.jsonSyntaxError message =>
       if includes message "Unexpected token" then [Effect.showRecommendationNotice]
       else [Effect.displayAIRecommendations (Json.groups [])]
     | _ => [Effect.displayAIRecommendations (Json.groups [])])

/-- The promise chain of `generateAIRecommendations` run on the outcome of its
`fetch`. -/
def generateAIRecommendations (parse : String → Except String JsonValue)
    (result : FetchResult) : List Effect :=
  match result with
  | FetchResult.failed => recommendOnError (JsError.typeError "Failed to fetch")
  | FetchResult.response r =>
    match recommendOnResponse parse r with
    | (eff1, Except.error e) => eff1 ++ recommendOnError e
    | (eff1, Except.ok data) =>
      match recommendOnData data with
      | (eff2, Except.error e) => eff1 ++ eff2 ++ recommendOnError e
      | (eff2, Except.ok _) => eff1 ++ eff2

/-- Second `.then` of the fetch of `/my-groups?format=json` in `my-groups.js`:
the value is stored, then `groups.length === 0` is read (which raises on
`null`), then `displayGroups(groups)` is called (which raises on a value
without `forEach`). -/
def myGroupsOnData (groups : JsonValue) : List Effect × Except JsError Unit :=
  match groups with
  | JsonValue.null =>
    ([Effect.storeAllGroups Json.null],
      Except.error (JsError.typeError "Cannot read properties of null"))
  | JsonValue.array gs =>
    if gs.length = 0 then
      ([Effect.storeAllGroups (Json.groups gs), Effect.showMyGroupsEmpty], Except.ok ())
    else
      ([Effect.storeAllGroups (Json.groups gs), Effect.displayMyGroups (Json.groups gs)],
        Except.ok ())
  | JsonValue.object o =>
    if o.lengthIsZero then
      ([Effect.storeAllGroups (Json.other true), Effect.showMyGroupsEmpty], Except.ok ())
    else
      ([Effect.storeAllGroups (Json.other false), Effect.displayMyGroups (Json.other false)],
        Except.error (JsError.typeError "groups.forEach is not a function"))

/-- The fetch of `/my-groups?format=json` in `my-groups.js` run on the outcome
of `fetch`: the body is parsed whatever the status and content type. -/
def fetchMyGroups (parse : String → Except String JsonValue) (result : FetchResult) :
    List Effect :=
  match result with
  | FetchResult.failed =>
    [Effect.consoleError (JsError.typeError "Failed to fetch"), Effect.showMyGroupsError]
  | FetchResult.response r =>
    match parseJsonValue parse r.body with
    | Except.error e => [Effect.consoleError e, Effect.showMyGroupsError]
    | Except.ok groups =>
      match myGroupsOnData groups with
      | (eff, Except.error e) => eff ++ [Effect.consoleError e, Effect.showMyGroupsError]
      | (eff, Except.ok _) => eff

/-- Second `.then` of `deleteGroup`: `data.success` raises on `null`. -/
def deleteOnData (data : JsonValue) : List Effect × Except JsError Unit :=
  match data with
  | JsonValue.null => ([], Except.error (JsError.typeError "Cannot read properties of null"))
  | JsonValue.array _ => ([Effect.alert ("Error deleting group: " ++ "undefined")], Except.ok ())
  | JsonValue.object o =>
    if o.success then
      ([Effect.alert "Group deleted successfully", Effect.reloadPage], Except.ok ())
    else
      ([Effect.alert ("Error deleting group: " ++ o.message)], Except.ok ())

/-- Function `deleteGroup(groupId)` of `my-groups.js`, given the answer to the
`confirm` dialog and the outcome of `fetch`. -/
def deleteGroup (parse : String → Except String JsonValue) (confirmed : Bool)
    (groupId : String) (result : FetchResult) : List Effect :=
  if confirmed then
    match result with
    | FetchResult.failed =>
      [Effect.consoleError (JsError.typeError "Failed to fetch"),
       Effect.alert "Error deleting group"]
    | FetchResult.response r =>
      match parseJsonValue parse r.body with
      | Except.error e => [Effect.consoleError e, Effect.alert "Error deleting group"]
      | Except.ok data =>
        match deleteOnData data with
        | (eff, Except.error e) =>
          eff ++ [Effect.consoleError e, Effect.alert "Error deleting group"]
        | (eff, Except.ok _) => eff
  else
    []

/-- The body of a JSON error answer, an object with an `error` property. -/
def unauthorizedBody : String := "\x7b\"error\": \"Unauthorized\"\x7d"

/-- A status-401 answer with a JSON error body. -/
def unauthorized401 : Response :=
  { status := 401, contentType := some "application/json", body := unauthorizedBody }

/-- A parser of full values for evaluation, with the messages of a V8 engine:
it knows the body `[]` and the JSON error answer. -/
def chromeParseValue (text : String) : Except String JsonValue :=
  if text = "[]" then Except.ok (JsonValue.array [])
  else if text = unauthorizedBody then
    Except.ok (JsonValue.object { error := some "Unauthorized" })
  else if startsWith text "<" then Except.error "Unexpected token < in JSON at position 0"
  else Except.error "Unexpected end of JSON input"

/-! ## The my-groups page: its own name helpers and the local search -/

namespace MyGroups

/-- The table `subjects` of `getFriendlySubjectName` in `my-groups.js`. -/
def subjects : List (String × String) :=
  [("math101", "Math 101"), ("prog101", "Programming Fundamentals"),
   ("bus101", "Business Ethics"), ("stats101", "Statistics 101")]

/-- The table `goals` of `getFriendlyGoalName` in `my-groups.js`. -/
def goals : List (String × String) :=
  [("midterm", "Midterm Review"), ("homework", "Homework Help"),
   ("project", "Project Discussion"), ("final", "Final Exam Prep")]

/-- Function `getFriendlySubjectName(subjectCode)` of `my-groups.js`:
`subjects[subjectCode] || subjectCode`. -/
def getFriendlySubjectName (subjectCode : String) : NameResult :=
  match lookupProp subjects subjectCode with
  | some v => if truthy v then v else NameResult.text subjectCode
  | none => NameResult.text subjectCode

/-- Function `getFriendlyGoalName(goalCode)` of `my-groups.js`:
`goals[goalCode] || goalCode`. -/
def getFriendlyGoalName (goalCode : String) : NameResult :=
  match lookupProp goals goalCode with
  | some v => if truthy v then v else NameResult.text goalCode
  | none => NameResult.text goalCode

/-- Method `.toLowerCase()` called on a resolver result, `lower` being
`String.prototype.toLowerCase`; an inherited function has no such method. -/
def toLowerCase (lower : String → String) : NameResult → Except JsError String
  | NameResult.text s => Except.ok (lower s)
  | NameResult.inherited _ =>
    Except.error (JsError.typeError "toLowerCase is not a function")

/-- The callback of `allGroups.filter(...)` in `performSearch`. -/
def searchCallback (lower : String → String) (searchTerm : String) (group : Group) :
    Except JsError Bool :=
  match toLowerCase lower (getFriendlySubjectName group.subject) with
  | Except.error e => Except.error e
  | Except.ok subjectName =>
    match toLowerCase lower (getFriendlyGoalName group.goal) with
    | Except.error e => Except.error e
    | Except.ok goalName =>
      let groupId := lower group.id
      let location := lower (group.location.getD "")
      Except.ok
        (includes subjectName searchTerm || includes goalName searchTerm
          || includes groupId searchTerm || includes location searchTerm)

/-- Method `Array.prototype.filter` with a callback that may raise: the
elements are visited in order and the first exception ends the call. -/
def filterGroups (keep : Group → Except JsError Bool) : List Group → Except JsError (List Group)
  | [] => Except.ok []
  | g :: rest =>
    match keep g with
    | Except.error e => Except.error e
    | Except.ok b =>
      match filterGroups keep rest with
      | Except.error e => Except.error e
      | Except.ok kept => Except.ok (if b then g :: kept else kept)

/-- The comparator `(a, b) => new Date(b.created_at) - new Date(a.created_at)`;
a `NaN` difference counts as `0`. -/
def byCreatedDesc (a b : Group) : Int :=
  match b.created_at, a.created_at with
  | some y, some x => y - x
  | _, _ => 0

/-- Function `performSearch(searchTerm)` on the cached list `allGroups`: the
list it hands to `displayGroups`, or the exception that ends it. -/
def performSearch (lower : String → String) (allGroups : List Group) (searchTerm : String) :
    Except JsError (List Group) :=
  match filterGroups (searchCallback lower searchTerm) allGroups with
  | Except.error e => Except.error e
  | Except.ok filteredGroups => Except.ok (sortBy byCreatedDesc filteredGroups)

/-- The click handler of the search button (and the Enter key handler): the
input is trimmed and lower-cased, and an empty term shows the whole cache. -/
def onSearch (lower trim : String → String) (allGroups : List Group) (inputValue : String) :
    Except JsError (List Group) :=
  let searchTerm := lower (trim inputValue)
  if searchTerm ≠ "" then performSearch lower allGroups searchTerm
  else Except.ok allGroups

/-- Whether both friendly names of a group are strings. -/
def namesAreText (g : Group) : Bool :=
  (match getFriendlySubjectName g.subject with
   | NameResult.text _ => true
   | NameResult.inherited _ => false) &&
  (match getFriendlyGoalName g.goal with
   | NameResult.text _ => true
   | NameResult.inherited _ => false)

/-- The decision of the filter callback of `performSearch` on one group: kept
when the callback returns `true`. -/
def keeps (lower : String → String) (searchTerm : String) (g : Group) : Bool :=
  match searchCallback lower searchTerm g with
  | Except.ok b => b
  | Except.error _ => false

/-- Sort key of a group: its creation time. -/
def createdKey (g : Group) : Int := g.created_at.getD 0

/-- Lower-casing on the ASCII range, for evaluation. -/
def asciiLower (s : String) : String := String.mk (s.toList.map Char.toLower)

/-- A cached list for evaluation: three groups created on consecutive days,
given oldest first. -/
def sampleGroups : List Group :=
  [{ id := "G1", subject := "math101", goal := "midterm", date := dateOnly 19723,
     location := some "Library", current_members := 1, max_members := 5,
     created_at := some 1000 },
   { id := "G2", subject := "bus101", goal := "final", date := dateOnly 19723,
     location := none, current_members := 2, max_members := 5,
     created_at := some 2000 },
   { id := "G3", subject := "eng101", goal := "homework", date := dateOnly 19723,
     location := some "MATH block", current_members := 5, max_members := 5,
     created_at := some 3000 }]

end MyGroups

/-! ## Join control of the browse and recommendation cards -/

/-- The `button` markup that `displayGroups` of `find.js` writes into the card
of `group`: the template literal of line 248 with `joinButtonClass`,
`group.id`, `joinButtonDisabled` and `joinButtonText` put in as they are. -/
def browseButtonHtml (group : Group) : String :=
  let isGroupFull := decide (group.current_members ≥ group.max_members)
  let joinButtonClass := if isGroupFull then "btn join-btn disabled" else "btn join-btn"
  let joinButtonText := if isGroupFull then "Group Full" else "Join This Group"
  let joinButtonDisabled := if isGroupFull then "disabled" else ""
  "<button class=\"" ++ joinButtonClass ++ "\" data-groupid=\"" ++ group.id ++ "\" "
    ++ joinButtonDisabled ++ ">" ++ joinButtonText ++ "</button>"

/-- The `button` markup that `displayAIRecommendations` writes into the card of
`group`: the template literals of lines 485 and 487. -/
def recommendationButtonHtml (group : Group) : String :=
  let isGroupFull := decide (group.current_members ≥ group.max_members)
  let joinButtonClass := if isGroupFull then "btn disabled" else "btn"
  let joinButtonText := if isGroupFull then "Group Full" else "Join Group"
  if isGroupFull then
    "<button class=\"" ++ joinButtonClass ++ "\" disabled>" ++ joinButtonText ++ "</button>"
  else
    "<button class=\"" ++ joinButtonClass ++ "\" onclick=\"joinGroup('" ++ group.id
      ++ "'); return false;\">" ++ joinButtonText ++ "</button>"

/-- The text that follows the first occurrence of `marker`, if there is one. -/
def afterMarker (marker : List Char) : List Char → Option (List Char)
  | [] => if marker = [] then some [] else none
  | c :: rest =>
    if marker.isPrefixOf (c :: rest) then some ((c :: rest).drop marker.length)
    else afterMarker marker rest

/-- The text of a double-quoted attribute as it stands in the markup: what
follows `marker` (the attribute name, `=` and the opening quote) up to the
next double quote, where an HTML parser ends the value. -/
def quotedValue (markup marker : String) : Option String :=
  (afterMarker marker.toList markup.toList).map
    (fun l => String.mk (l.takeWhile (fun c => decide (c ≠ Char.ofNat 34))))

/-- A group with a free seat whose id holds a double quote. -/
def quoteGroup : Group :=
  { id := "a\"b", subject := "math101", goal := "midterm", date := dateOnly 19723,
    current_members := 1, max_members := 5 }

/-! ## Create-group form -/

/-- The values read from the create-group form. -/
structure CreateForm where
  subject : String
  goal : String
  date : String
  time : String
  location : String
  maxMembers : String
  deriving DecidableEq, Repr

/-- What the submit handler does before any response arrives. -/
inductive SubmitEffect where
  | preventDefault
  | alert (message : String)
  | fetch (url : String)
  deriving DecidableEq, Repr

/-- The synchronous part of the submit handler of `create.js`: a falsy (empty)
required value ends it with the alert; otherwise the chain that creates the
group starts with the request for `/api/user`. -/
def onSubmit (form : CreateForm) : List SubmitEffect :=
  let subject := form.subject
  let goal := form.goal
  let date := form.date
  let time := form.time
  let locationValue := form.location
  if subject = "" ∨ goal = "" ∨ date = "" ∨ time = "" ∨ locationValue = "" then
    [SubmitEffect.preventDefault, SubmitEffect.alert "Please fill in all required fields"]
  else
    [SubmitEffect.preventDefault, SubmitEffect.fetch "/api/user"]

/-- Whether an effect is a network call. -/
def SubmitEffect.isNetworkCall : SubmitEffect → Bool
  | SubmitEffect.fetch _ => true
  | _ => false

/-- A form with every field filled in. -/
def filledForm : CreateForm :=
  { subject := "math101", goal := "midterm", date := "2024-01-01", time := "10:00",
    location := "Library", maxMembers := "" }

/-! ## Name helpers of the browse page -/

/-- Function `getFriendlySubjectName(subjectCode)` of `find.js`. -/
def getFriendlySubjectName (upper : Char → String) (subjectCode : String) : NameResult :=
  formatSubjectName upper subjectCode

/-- Function `getFriendlyGoalName(goalCode)` of `find.js`. -/
def getFriendlyGoalName (upper : Char → String) (goalCode : String) : NameResult :=
  formatGoalName upper goalCode

/-! ## The search as the spec states it -/

/-- The display string of a resolver result; a code that resolves to no string
degrades to the raw code. -/
def friendlyText : NameResult → String
  | NameResult.text s => s
  | NameResult.inherited key => key

/-- The four fields the search is specified on: the friendly subject and goal
names of the Naming Resolver (`formatSubjectName`, `formatGoalName`), the id as
text and the location (empty when missing). -/
def resolverFields (upper : Char → String) (g : Group) : List String :=
  [friendlyText (formatSubjectName upper g.subject),
   friendlyText (formatGoalName upper g.goal), g.id, g.location.getD ""]

/-- Case-insensitive containment as the spec states it: some field contains
the term, both lower-cased. -/
def specMatches (upper : Char → String) (lower : String → String) (term : String)
    (g : Group) : Bool :=
  (resolverFields upper g).any (fun field => includes (lower field) (lower term))

/-- A group on English Literature (`eng101`) for assignment help. -/
def englishGroup : Group :=
  { id := "G7", subject := "eng101", goal := "assignment", date := dateOnly 19723,
    location := some "Room 2", current_members := 1, max_members := 5,
    created_at := some 5000 }

/-- A group whose subject code is `constructor`, with a valid creation time. -/
def constructorGroup : Group :=
  { id := "G4", subject := "constructor", goal := "midterm", date := dateOnly 19723,
    location := some "Math lab", current_members := 1, max_members := 5,
    created_at := some 4000 }

/-! # Properties -/

/-! ## Lemmas on the stable sort -/

theorem insertBy_perm {α : Type} (cmp : α → α → Int) (a : α) (l : List α) :
    (insertBy cmp a l).Perm (a :: l) := by
  induction l with
  | nil => exact List.Perm.refl _
  | cons b l ih =>
    unfold insertBy
    split
    · exact List.Perm.refl _
    · exact (List.Perm.cons b ih).trans (List.Perm.swap a b l)

theorem sortBy_perm {α : Type} (cmp : α → α → Int) (l : List α) :
    (sortBy cmp l).Perm l := by
  induction l with
  | nil => exact List.Perm.refl _
  | cons a l ih =>
    unfold sortBy
    exact (insertBy_perm cmp a _).trans (List.Perm.cons a ih)

theorem sortBy_length {α : Type} (cmp : α → α → Int) (l : List α) :
    (sortBy cmp l).length = l.length :=
  (sortBy_perm cmp l).length_eq

theorem mem_sortBy {α : Type} (cmp : α → α → Int) (l : List α) (x : α) :
    x ∈ sortBy cmp l ↔ x ∈ l :=
  (sortBy_perm cmp l).mem_iff

/-- Inserting into a list in descending score order keeps it so. -/
theorem insertBy_scoreDesc (a : ScoredGroup) (l : List ScoredGroup)
    (h : l.Pairwise (fun x y => y.matchScore ≤ x.matchScore)) :
    (insertBy byScoreDesc a l).Pairwise (fun x y => y.matchScore ≤ x.matchScore) := by
  induction l with
  | nil => simp [insertBy]
  | cons b l ih =>
    have hb : ∀ y ∈ l, y.matchScore ≤ b.matchScore := (List.pairwise_cons.mp h).1
    have hl := List.Pairwise.of_cons h
    unfold insertBy
    split
    · rename_i hle
      have hba : b.matchScore ≤ a.matchScore := by
        unfold byScoreDesc at hle; omega
      refine List.Pairwise.cons ?_ h
      intro y hy
      rcases List.mem_cons.mp hy with rfl | hy
      · exact hba
      · exact le_trans (hb y hy) hba
    · rename_i hgt
      have hab : a.matchScore ≤ b.matchScore := by
        unfold byScoreDesc at hgt; omega
      refine List.Pairwise.cons ?_ (ih hl)
      intro y hy
      rcases List.mem_cons.mp ((insertBy_perm byScoreDesc a l).mem_iff.mp hy) with rfl | hy
      · exact hab
      · exact hb y hy

theorem sortBy_scoreDesc (l : List ScoredGroup) :
    (sortBy byScoreDesc l).Pairwise (fun x y => y.matchScore ≤ x.matchScore) := by
  induction l with
  | nil => simp [sortBy]
  | cons a l ih => unfold sortBy; exact insertBy_scoreDesc a _ ih

/-- Insertion does not travel past an element of the same score. -/
theorem insertBy_filter_score (k : Nat) (a : ScoredGroup) (l : List ScoredGroup) :
    (insertBy byScoreDesc a l).filter (fun s => decide (s.matchScore = k))
      = (a :: l).filter (fun s => decide (s.matchScore = k)) := by
  induction l with
  | nil => simp [insertBy]
  | cons b l ih =>
    unfold insertBy
    split
    · rfl
    · rename_i hgt
      have hne : a.matchScore ≠ b.matchScore := by
        unfold byScoreDesc at hgt; omega
      rw [List.filter_cons, ih]
      by_cases ha : a.matchScore = k <;> by_cases hb : b.matchScore = k
      · omega
      · simp [List.filter_cons, ha, hb]
      · simp [List.filter_cons, ha, hb]
      · simp [List.filter_cons, ha, hb]

/-- Stability: among the groups of one score the sort keeps the input order. -/
theorem sortBy_filter_score (k : Nat) (l : List ScoredGroup) :
    (sortBy byScoreDesc l).filter (fun s => decide (s.matchScore = k))
      = l.filter (fun s => decide (s.matchScore = k)) := by
  induction l with
  | nil => simp [sortBy]
  | cons a l ih =>
    unfold sortBy
    rw [insertBy_filter_score, List.filter_cons, List.filter_cons, ih]

theorem subjectMatches_iff (f : UserFilters) (g : Group) :
    subjectMatches f g = true ↔ (f.subject ≠ "all" ∧ g.subject = f.subject) := by
  unfold subjectMatches
  simp only [Bool.and_eq_true, decide_eq_true_eq]
  exact ⟨fun h => ⟨h.1, h.2.symm⟩, fun h => ⟨h.1, h.2.symm⟩⟩

theorem goalMatches_iff (f : UserFilters) (g : Group) :
    goalMatches f g = true ↔ (f.goal ≠ "all" ∧ g.goal = f.goal) := by
  unfold goalMatches
  simp only [Bool.and_eq_true, decide_eq_true_eq]
  exact ⟨fun h => ⟨h.1, h.2.symm⟩, fun h => ⟨h.1, h.2.symm⟩⟩

theorem dateMatches_iff (tz now : Int) (f : UserFilters) (g : Group) :
    dateMatches tz now f g = true
      ↔ (f.date ≠ "all" ∧ isDateInRange tz now g.date f.date = true) := by
  unfold dateMatches
  simp only [Bool.and_eq_true, decide_eq_true_eq]

theorem notFull_iff (g : Group) :
    notFull g = true ↔ g.current_members < g.max_members := by
  unfold notFull
  simp only [decide_eq_true_eq]

/-- One accumulation step of the scorer adds the bonus of its criterion. -/
theorem ite_add_eq_bonus (p : Prop) [Decidable p] (b : Bool) (h : b = true ↔ p) (n k : Nat) :
    (if p then n + k else n) = n + bonus b k := by
  unfold bonus
  by_cases hp : p
  · have hb : b = true := h.mpr hp
    simp [hp, hb]
  · have hb : b = false := by
      cases b
      · rfl
      · exact absurd (h.mp rfl) hp
    simp [hp, hb]

/-- The score computed step by step is the sum of the four bonuses. -/
theorem scoreGroup_matchScore (tz now : Int) (f : UserFilters) (g : Group) :
    (scoreGroup tz now f g).matchScore = bonusSum tz now f g := by
  unfold scoreGroup bonusSum
  simp only []
  rw [ite_add_eq_bonus _ _ (notFull_iff g), ite_add_eq_bonus _ _ (dateMatches_iff tz now f g),
    ite_add_eq_bonus _ _ (goalMatches_iff f g), ite_add_eq_bonus _ _ (subjectMatches_iff f g)]
  omega

theorem bonus_le (b : Bool) (k : Nat) : bonus b k ≤ k := by
  unfold bonus; split <;> omega

theorem bonus_eq_iff (b : Bool) (k : Nat) (hk : 0 < k) : bonus b k = k ↔ b = true := by
  unfold bonus
  cases b
  · simp; omega
  · simp

theorem scoreGroup_group (tz now : Int) (f : UserFilters) (g : Group) :
    (scoreGroup tz now f g).group = g := rfl

theorem mem_getAIRecommendations (tz now : Int) (f : UserFilters) (gs : List Group)
    (s : ScoredGroup) (h : s ∈ getAIRecommendations tz now f (some gs)) :
    s ∈ gs.map (scoreGroup tz now f) := by
  unfold getAIRecommendations at h
  simp only [] at h
  split at h
  · exact absurd h (List.not_mem_nil s)
  · exact (mem_sortBy byScoreDesc _ s).mp (List.mem_of_mem_take h)

theorem getAIRecommendations_eq_take (tz now : Int) (f : UserFilters) (gs : List Group) :
    getAIRecommendations tz now f (some gs)
      = (sortBy byScoreDesc (gs.map (scoreGroup tz now f))).take 2 := by
  unfold getAIRecommendations
  simp only []
  split
  · rename_i h
    have hnil : gs = [] := List.length_eq_zero.mp h
    subst hnil
    rfl
  · rfl

/-! ## Recommendation scorer -/

/-- C1: the score `getAIRecommendations` gives a group is the sum of four
independent bonuses (5 subject, 3 goal, 2 date range, 1 free seat), so it lies
between 0 and 11 and is 11 exactly when all four tests hold; every returned
element carries the bonus sum of its own group; and the worked example scores
9 and 0. -/
theorem matchScore_is_sum_of_bonuses (tz now : Int) (f : UserFilters) :
    (∀ g : Group,
      (scoreGroup tz now f g).group = g ∧
      (scoreGroup tz now f g).matchScore
        = (if f.subject ≠ "all" ∧ f.subject = g.subject then 5 else 0)
          + (if f.goal ≠ "all" ∧ f.goal = g.goal then 3 else 0)
          + (if f.date ≠ "all" ∧ isDateInRange tz now g.date f.date = true then 2 else 0)
          + (if g.current_members < g.max_members then 1 else 0) ∧
      (scoreGroup tz now f g).matchScore = bonusSum tz now f g ∧
      0 ≤ (scoreGroup tz now f g).matchScore ∧
      (scoreGroup tz now f g).matchScore ≤ 11 ∧
      ((scoreGroup tz now f g).matchScore = 11 ↔
        ((f.subject ≠ "all" ∧ f.subject = g.subject) ∧
         (f.goal ≠ "all" ∧ f.goal = g.goal) ∧
         (f.date ≠ "all" ∧ isDateInRange tz now g.date f.date = true) ∧
         g.current_members < g.max_members))) ∧
    (∀ (gs : List Group) (s : ScoredGroup), s ∈ getAIRecommendations tz now f (some gs) →
      s.group ∈ gs ∧ s.matchScore = bonusSum tz now f s.group) ∧
    (getAIRecommendations tz now exampleFilters (some [exampleGroup1, exampleGroup2])).map
      (fun s => (s.group.id, s.matchScore)) = [("1", 9), ("2", 0)] := by
  refine ⟨fun g => ?_, fun gs s hs => ?_, ?_⟩
  · have hsum := scoreGroup_matchScore tz now f g
    have h1 := bonus_le (subjectMatches f g) 5
    have h2 := bonus_le (goalMatches f g) 3
    have h3 := bonus_le (dateMatches tz now f g) 2
    have h4 := bonus_le (notFull g) 1
    have e1 := bonus_eq_iff (subjectMatches f g) 5 (by omega)
    have e2 := bonus_eq_iff (goalMatches f g) 3 (by omega)
    have e3 := bonus_eq_iff (dateMatches tz now f g) 2 (by omega)
    have e4 := bonus_eq_iff (notFull g) 1 (by omega)
    have s1 : subjectMatches f g = true ↔ (f.subject ≠ "all" ∧ f.subject = g.subject) :=
      (subjectMatches_iff f g).trans ⟨fun h => ⟨h.1, h.2.symm⟩, fun h => ⟨h.1, h.2.symm⟩⟩
    have s2 : goalMatches f g = true ↔ (f.goal ≠ "all" ∧ f.goal = g.goal) :=
      (goalMatches_iff f g).trans ⟨fun h => ⟨h.1, h.2.symm⟩, fun h => ⟨h.1, h.2.symm⟩⟩
    have s3 := dateMatches_iff tz now f g
    have s4 := notFull_iff g
    refine ⟨rfl, ?_, hsum, Nat.zero_le _, ?_, ?_⟩
    · rw [hsum]
      unfold bonusSum
      have b1 := ite_add_eq_bonus _ _ s1 0 5
      have b2 := ite_add_eq_bonus _ _ s2 0 3
      have b3 := ite_add_eq_bonus _ _ s3 0 2
      have b4 := ite_add_eq_bonus _ _ s4 0 1
      simp only [Nat.zero_add] at b1 b2 b3 b4
      rw [b1, b2, b3, b4]
    · rw [hsum]; unfold bonusSum; omega
    · rw [hsum, ← s1, ← s2, ← s3, ← s4, ← e1, ← e2, ← e3, ← e4]
      unfold bonusSum
      omega
  · have hmem := mem_getAIRecommendations tz now f gs s hs
    obtain ⟨g, hg, rfl⟩ := List.mem_map.mp hmem
    exact ⟨hg, scoreGroup_matchScore tz now f g⟩
  · simp [getAIRecommendations, scoreGroup, exampleFilters, exampleGroup1, exampleGroup2,
      sortBy, insertBy, byScoreDesc]

/-- C2: the returned list is the first two elements of the scored groups put in
descending score order with equal scores left in input order: the ranking is a
permutation of the scored groups, is descending, agrees with the input on every
set of equal-scoring groups, every returned group scores at least as high as
every group left out, and two equal-scoring groups keep their input order. -/
theorem getAIRecommendations_is_stable_top_two (tz now : Int) (f : UserFilters)
    (gs : List Group) :
    ∃ ranked : List ScoredGroup,
      ranked.Perm (gs.map (scoreGroup tz now f)) ∧
      ranked.Pairwise (fun a b => b.matchScore ≤ a.matchScore) ∧
      (∀ k : Nat, ranked.filter (fun s => decide (s.matchScore = k))
        = (gs.map (scoreGroup tz now f)).filter (fun s => decide (s.matchScore = k))) ∧
      (∀ a b : ScoredGroup, a.matchScore = b.matchScore →
        List.Sublist [a, b] (gs.map (scoreGroup tz now f)) → List.Sublist [a, b] ranked) ∧
      getAIRecommendations tz now f (some gs) = ranked.take 2 ∧
      (∀ x ∈ getAIRecommendations tz now f (some gs), ∀ y ∈ ranked.drop 2,
        y.matchScore ≤ x.matchScore) := by
  refine ⟨sortBy byScoreDesc (gs.map (scoreGroup tz now f)), sortBy_perm _ _,
    sortBy_scoreDesc _, fun k => sortBy_filter_score k _, ?_,
    getAIRecommendations_eq_take tz now f gs, ?_⟩
  · intro a b hab hsub
    have hf := List.Sublist.filter (fun s => decide (s.matchScore = a.matchScore)) hsub
    rw [← sortBy_filter_score a.matchScore (gs.map (scoreGroup tz now f))] at hf
    have hab2 : [a, b].filter (fun s => decide (s.matchScore = a.matchScore)) = [a, b] := by
      simp [List.filter_cons, hab]
    rw [hab2] at hf
    exact hf.trans (List.filter_sublist _)
  · intro x hx y hy
    rw [getAIRecommendations_eq_take] at hx
    have hp := sortBy_scoreDesc (gs.map (scoreGroup tz now f))
    rw [← List.take_append_drop 2 (sortBy byScoreDesc (gs.map (scoreGroup tz now f)))] at hp
    exact (List.pairwise_append.mp hp).2.2 x hx y hy

/-- C3: for a list of `n` groups exactly `min 2 n` recommendations come back,
and an empty or absent list gives the empty result. -/
theorem getAIRecommendations_length (tz now : Int) (f : UserFilters) :
    (∀ gs : List Group,
      (getAIRecommendations tz now f (some gs)).length = min 2 gs.length) ∧
    getAIRecommendations tz now f (some []) = [] ∧
    getAIRecommendations tz now f none = [] := by
  refine ⟨fun gs => ?_, rfl, rfl⟩
  rw [getAIRecommendations_eq_take, List.length_take, sortBy_length, List.length_map]

theorem bonus_mono (b c : Bool) (k : Nat) (h : b = true → c = true) :
    bonus b k ≤ bonus c k := by
  unfold bonus
  cases b
  · simp
  · simp [h rfl]

/-- C4 (as stated, refuted): two groups that each match one active criterion can
score 3 and 5, and a full group matching the same two criteria as a group with
a free seat scores 8 against 9; so a group matching at least as many criteria
as another can still score lower. -/
theorem matchScore_not_monotone_in_matchCount :
    (matchCount 0 0 exampleFilters subjectOnlyGroup
        ≤ matchCount 0 0 exampleFilters goalOnlyGroup ∧
      (scoreGroup 0 0 exampleFilters goalOnlyGroup).matchScore = 3 ∧
      (scoreGroup 0 0 exampleFilters subjectOnlyGroup).matchScore = 5) ∧
    (matchCount 0 0 exampleFilters exampleGroup1
        ≤ matchCount 0 0 exampleFilters exampleGroup1Full ∧
      (scoreGroup 0 0 exampleFilters exampleGroup1Full).matchScore = 8 ∧
      (scoreGroup 0 0 exampleFilters exampleGroup1).matchScore = 9) ∧
    ¬ (∀ (tz now : Int) (f : UserFilters) (a b : Group),
        matchCount tz now f b ≤ matchCount tz now f a →
        (scoreGroup tz now f b).matchScore ≤ (scoreGroup tz now f a).matchScore) := by
  refine ⟨by decide, by decide, ?_⟩
  intro h
  have h1 := h 0 0 exampleFilters goalOnlyGroup subjectOnlyGroup (by decide)
  revert h1
  decide

/-- C4 (amended): the score is monotone in the set of tests a group passes: if
every active criterion the group `b` matches is matched by `a` too, and `a` has
a free seat whenever `b` has one, then the score of `a` is not lower. -/
theorem matchScore_monotone_in_matched_criteria (tz now : Int) (f : UserFilters)
    (a b : Group)
    (hs : subjectMatches f b = true → subjectMatches f a = true)
    (hg : goalMatches f b = true → goalMatches f a = true)
    (hd : dateMatches tz now f b = true → dateMatches tz now f a = true)
    (hn : notFull b = true → notFull a = true) :
    (scoreGroup tz now f b).matchScore ≤ (scoreGroup tz now f a).matchScore := by
  rw [scoreGroup_matchScore, scoreGroup_matchScore]
  unfold bonusSum
  have h1 := bonus_mono _ _ 5 hs
  have h2 := bonus_mono _ _ 3 hg
  have h3 := bonus_mono _ _ 2 hd
  have h4 := bonus_mono _ _ 1 hn
  omega

/-- The amended C4 at the worked example: its first group passes every test
the same group with all seats taken passes, so it is not outscored by it. -/
theorem matchScore_monotone_in_matched_criteria_witness :
    (subjectMatches exampleFilters exampleGroup1Full = true →
      subjectMatches exampleFilters exampleGroup1 = true) ∧
    (goalMatches exampleFilters exampleGroup1Full = true →
      goalMatches exampleFilters exampleGroup1 = true) ∧
    (notFull exampleGroup1Full = true → notFull exampleGroup1 = true) ∧
    (scoreGroup 0 0 exampleFilters exampleGroup1Full).matchScore
      ≤ (scoreGroup 0 0 exampleFilters exampleGroup1).matchScore :=
  ⟨by decide, by decide, by decide,
    matchScore_monotone_in_matched_criteria 0 0 exampleFilters exampleGroup1 exampleGroup1Full
      (by decide) (by decide) (by decide) (by decide)⟩

/-! ## Naming resolver -/

/-- The global replacement changes nothing in a code without capitals. -/
theorem spaceBeforeCapitals_of_no_capital (l : List Char)
    (h : ∀ c ∈ l, isCapital c = false) : spaceBeforeCapitals l = l := by
  induction l with
  | nil => rfl
  | cons c rest ih =>
    have hc : isCapital c = false := h c (List.mem_cons_self c rest)
    have hrest : spaceBeforeCapitals rest = rest :=
      ih (fun d hd => h d (List.mem_cons_of_mem c hd))
    simp [spaceBeforeCapitals, hc, hrest]

theorem humanize_of_no_capital (upper : Char → String) (code : String)
    (h : ∀ c ∈ code.toList, isCapital c = false) :
    humanize upper code = String.mk (upperFirst upper code.toList) := by
  unfold humanize
  rw [spaceBeforeCapitals_of_no_capital _ h]

theorem formatSubjectName_of_absent (upper : Char → String) (code : String)
    (h : lookupProp subjectMap code = none) :
    formatSubjectName upper code = NameResult.text (humanize upper code) := by
  unfold formatSubjectName
  rw [h]

theorem formatGoalName_of_absent (upper : Char → String) (code : String)
    (h : lookupProp goalMap code = none) :
    formatGoalName upper code = NameResult.text (humanize upper code) := by
  unfold formatGoalName
  rw [h]

/-- C5 (as stated, refuted): `newcode` is in neither table and has no capital
letter, yet both resolvers return `Newcode`, not the code itself. -/
theorem resolvers_change_newcode :
    lookupProp subjectMap "newcode" = none ∧
    lookupProp goalMap "newcode" = none ∧
    (∀ c ∈ "newcode".toList, isCapital c = false) ∧
    formatSubjectName asciiUpper "newcode" = NameResult.text "Newcode" ∧
    formatGoalName asciiUpper "newcode" = NameResult.text "Newcode" ∧
    formatSubjectName asciiUpper "newcode" ≠ NameResult.text "newcode" ∧
    formatGoalName asciiUpper "newcode" ≠ NameResult.text "newcode" := by
  decide

/-- C5 (amended): for a code without a capital letter that a table does not
resolve, the resolver of that table returns the code with its first character
upper-cased and the rest untouched; so the empty code, and any code whose first
character is its own upper case, comes back unchanged. -/
theorem resolvers_upper_first_of_no_capital (upper : Char → String) (code : String)
    (hcap : ∀ c ∈ code.toList, isCapital c = false) :
    (lookupProp subjectMap code = none →
      formatSubjectName upper code = NameResult.text (String.mk (upperFirst upper code.toList))) ∧
    (lookupProp goalMap code = none →
      formatGoalName upper code = NameResult.text (String.mk (upperFirst upper code.toList))) ∧
    (∀ (c : Char) (rest : List Char), code.toList = c :: rest →
      isLineTerminator c = false → c.toNat < 65536 →
      String.mk (upperFirst upper code.toList) = upper c ++ String.mk rest) ∧
    (code = "" ∨ (∀ c ∈ code.toList.head?, upper c = String.singleton c) →
      String.mk (upperFirst upper code.toList) = code) := by
  refine ⟨fun h => ?_, fun h => ?_, ?_, ?_⟩
  · rw [formatSubjectName_of_absent upper code h, humanize_of_no_capital upper code hcap]
  · rw [formatGoalName_of_absent upper code h, humanize_of_no_capital upper code hcap]
  · intro c rest hcode hlt hbmp
    rw [hcode]
    have h2 : ¬ (65536 ≤ c.toNat) := by omega
    simp only [upperFirst, hlt, h2, if_false, Bool.false_eq_true]
    apply String.ext
    simp [String.data_append]
  · intro h
    obtain ⟨l⟩ := code
    cases l with
    | nil => rfl
    | cons c rest =>
      rcases h with h | h
      · exact absurd (congrArg String.data h) (List.cons_ne_nil c rest)
      · have hc : upper c = String.singleton c := h c (by simp [String.toList])
        simp only [String.toList, upperFirst, hc]
        split
        · rfl
        · split
          · rfl
          · rfl

/-- The amended C5 at `newcode` and at the digit-led code `101x`. -/
theorem resolvers_upper_first_of_no_capital_witness :
    (∀ c ∈ "newcode".toList, isCapital c = false) ∧
    formatSubjectName asciiUpper "newcode"
      = NameResult.text (String.mk (upperFirst asciiUpper "newcode".toList)) ∧
    String.mk (upperFirst asciiUpper "101x".toList) = "101x" :=
  ⟨by decide,
    (resolvers_upper_first_of_no_capital asciiUpper "newcode" (by decide)).1 (by decide),
    (resolvers_upper_first_of_no_capital asciiUpper "101x" (by decide)).2.2.2
      (Or.inr (by decide))⟩

/-- C6 (evaluation at the failing input): `MathAdvanced` is in neither table and
starts with a capital; both resolvers return it with a space in front of that
capital too, so the result starts with a space. -/
theorem resolvers_space_before_initial_capital :
    lookupProp subjectMap "MathAdvanced" = none ∧
    lookupProp goalMap "MathAdvanced" = none ∧
    formatSubjectName asciiUpper "MathAdvanced" = NameResult.text " Math Advanced" ∧
    formatGoalName asciiUpper "MathAdvanced" = NameResult.text " Math Advanced" ∧
    formatSubjectName asciiUpper "dataScience" = NameResult.text "Data Science" := by
  decide

/-! ## Date ranges -/

/-- C7 (evaluation at the failing input): on Wednesday 2024-01-03 at 15:00 UTC
the Sunday of that week, 2023-12-31, is not in `thisWeek`, and the following
Sunday, 2024-01-07, is not in `nextWeek`, because the week boundaries keep the
clock's time of day; at 00:00 of the same Wednesday both are in range. -/
theorem isDateInRange_depends_on_time_of_day :
    getDay 0 wednesdayAfternoon = 3 ∧
    getDay 0 wednesdayMidnight = 3 ∧
    isDateInRange 0 wednesdayAfternoon (dateOnly 19722) "thisWeek" = false ∧
    isDateInRange 0 wednesdayMidnight (dateOnly 19722) "thisWeek" = true ∧
    isDateInRange 0 wednesdayAfternoon (dateOnly 19728) "thisWeek" = true ∧
    isDateInRange 0 wednesdayAfternoon (dateOnly 19729) "nextWeek" = false ∧
    isDateInRange 0 wednesdayMidnight (dateOnly 19729) "nextWeek" = true ∧
    isDateInRange 0 wednesdayAfternoon (dateOnly 19729) "thisWeek" = false := by
  decide

/-- C8: for a range other than `thisWeek` and `nextWeek` the classifier answers
true, whatever the date (valid or not), the clock and the zone. -/
theorem isDateInRange_other_range (tz now : Int) (groupDate : Option Int) (range : String)
    (h1 : range ≠ "thisWeek") (h2 : range ≠ "nextWeek") :
    isDateInRange tz now groupDate range = true := by
  unfold isDateInRange
  simp only [h1, h2, if_false]

/-- C8 at the range `all` with an invalid date. -/
theorem isDateInRange_other_range_witness :
    "all" ≠ "thisWeek" ∧ "all" ≠ "nextWeek" ∧
    isDateInRange 0 wednesdayAfternoon none "all" = true :=
  ⟨by decide, by decide,
    isDateInRange_other_range 0 wednesdayAfternoon none "all" (by decide) (by decide)⟩

/-! ## Query building -/

/-- C9: the query holds, in the order subject, goal, date, exactly the fields
whose value is non-empty and not `all`, each with the dropdown's value; a field
set to `all` is never sent, and with all three set to `all` the query is empty,
the same as with no filter value at all. -/
theorem buildParams_only_active_filters (f : UserFilters) :
    buildParams f
      = [("subject", f.subject), ("goal", f.goal), ("date", f.date)].filter
          (fun kv => decide (kv.2 ≠ "" ∧ kv.2 ≠ "all")) ∧
    (∀ k v : String, (k, v) ∈ buildParams f →
      v ≠ "all" ∧
      ((k = "subject" ∧ v = f.subject) ∨ (k = "goal" ∧ v = f.goal)
        ∨ (k = "date" ∧ v = f.date))) ∧
    (f.subject ≠ "" ∧ f.subject ≠ "all" → ("subject", f.subject) ∈ buildParams f) ∧
    (f.goal ≠ "" ∧ f.goal ≠ "all" → ("goal", f.goal) ∈ buildParams f) ∧
    (f.date ≠ "" ∧ f.date ≠ "all" → ("date", f.date) ∈ buildParams f) ∧
    buildParams { subject := "all", goal := "all", date := "all" } = [] ∧
    buildParams { subject := "all", goal := "all", date := "all" }
      = buildParams { subject := "", goal := "", date := "" } ∧
    (∀ serialize : List (String × String) → String,
      findGroupUrl serialize (buildParams { subject := "all", goal := "all", date := "all" })
        = findGroupUrl serialize []) := by
  have hfilter : buildParams f
      = [("subject", f.subject), ("goal", f.goal), ("date", f.date)].filter
          (fun kv => decide (kv.2 ≠ "" ∧ kv.2 ≠ "all")) := by
    unfold buildParams
    simp only [List.filter_cons, List.filter_nil]
    by_cases hs : f.subject ≠ "" ∧ f.subject ≠ "all" <;>
    by_cases hg : f.goal ≠ "" ∧ f.goal ≠ "all" <;>
    by_cases hd : f.date ≠ "" ∧ f.date ≠ "all" <;>
    simp [hs, hg, hd]
  refine ⟨hfilter, ?_, ?_, ?_, ?_, by decide, by decide, fun serialize => ?_⟩
  · intro k v hkv
    rw [hfilter, List.mem_filter] at hkv
    obtain ⟨hmem, hkeep⟩ := hkv
    have hv : v ≠ "" ∧ v ≠ "all" := by simpa using hkeep
    refine ⟨hv.2, ?_⟩
    simp only [List.mem_cons, Prod.mk.injEq, List.mem_singleton, List.not_mem_nil,
      or_false] at hmem
    exact hmem
  · intro h
    rw [hfilter, List.mem_filter]
    exact ⟨by simp, by simpa using h⟩
  · intro h
    rw [hfilter, List.mem_filter]
    exact ⟨by simp, by simpa using h⟩
  · intro h
    rw [hfilter, List.mem_filter]
    exact ⟨by simp, by simpa using h⟩
  · have h0 : buildParams { subject := "all", goal := "all", date := "all" } = [] := by decide
    rw [h0]

/-! ## Response handling of the browse fetch -/

theorem includes_nonempty (ct : String) (h : includes ct "application/json" = true) :
    ct ≠ "" := by
  intro hct
  subst hct
  revert h
  decide

/-- C10: a response with status 401 only redirects to the login page (no
groups and no error message are rendered), and a success response with a JSON
content type whose body parses to a group array hands exactly that array to
`displayGroups` and does nothing else. -/
theorem loadAndDisplayGroups_auth_and_ok (parse : String → Except String Json)
    (r : Response) :
    (r.status = 401 →
      loadAndDisplayGroups parse (FetchResult.response r)
        = [Effect.showLoading, Effect.redirectToLogin]) ∧
    (∀ (ct : String) (gs : List Group),
      200 ≤ r.status → r.status ≤ 299 →
      r.contentType = some ct → includes ct "application/json" = true →
      parse r.body = Except.ok (Json.groups gs) →
      loadAndDisplayGroups parse (FetchResult.response r)
        = [Effect.showLoading, Effect.displayGroups (Json.groups gs)]) := by
  constructor
  · intro h401
    have hok : r.ok = false := by
      unfold Response.ok
      rw [h401]
      decide
    simp [loadAndDisplayGroups, onResponse, hok, h401, onGroups]
  · intro ct gs hlo hhi hct hinc hparse
    have hok : r.ok = true := by
      unfold Response.ok
      simp [hlo, hhi]
    have hjson : isJsonContentType r.contentType = true := by
      rw [hct]
      simp [isJsonContentType, hinc, includes_nonempty ct hinc]
    simp [loadAndDisplayGroups, onResponse, hok, hjson, parseJson, hparse, onGroups,
      displayGroupsThrows]

/-- C10 at a 401 response and at a 200 JSON response with body `[]`. -/
theorem loadAndDisplayGroups_auth_and_ok_witness :
    loadAndDisplayGroups sampleParse
        (FetchResult.response { status := 401, contentType := some "text/html", body := "" })
      = [Effect.showLoading, Effect.redirectToLogin] ∧
    loadAndDisplayGroups sampleParse
        (FetchResult.response
          { status := 200, contentType := some "application/json; charset=utf-8", body := "[]" })
      = [Effect.showLoading, Effect.displayGroups (Json.groups [])] :=
  ⟨(loadAndDisplayGroups_auth_and_ok sampleParse
      { status := 401, contentType := some "text/html", body := "" }).1 rfl,
   (loadAndDisplayGroups_auth_and_ok sampleParse
      { status := 200, contentType := some "application/json; charset=utf-8", body := "[]" }).2
      "application/json; charset=utf-8" [] (by decide) (by decide) rfl (by decide) rfl⟩

/-- C11 (as stated, refuted): a status-500 response whose body is an HTML
document gets the inline error message and no redirect, because the body of a
non-success response is never looked at; and a success response with a
malformed JSON body is redirected to the login page when the parser's message
contains `Unexpected token`. -/
theorem loadAndDisplayGroups_not_body_driven :
    (errorPage500.ok = false ∧ errorPage500.status ≠ 401 ∧
      startsWith errorPage500.body "<!DOCTYPE" = true ∧
      loadAndDisplayGroups chromeParse (FetchResult.response errorPage500)
        = [Effect.showLoading,
           Effect.consoleError (JsError.error "Network response was not ok"),
           Effect.showLoadError]) ∧
    (malformedJson200.ok = true ∧
      chromeParse malformedJson200.body
        = Except.error "Unexpected token o in JSON at position 0" ∧
      startsWith malformedJson200.body "<!DOCTYPE" = false ∧
      startsWith malformedJson200.body "<html" = false ∧
      loadAndDisplayGroups chromeParse (FetchResult.response malformedJson200)
        = [Effect.showLoading,
           Effect.consoleError
             (JsError.jsonSyntaxError "Unexpected token o in JSON at position 0"),
           Effect.redirectToLogin]) := by
  refine ⟨⟨by decide, by decide, by decide, by decide⟩,
    ⟨by decide, rfl, by decide, by decide, by decide⟩⟩

/-- C11 (amended): a non-success status other than 401 gives the inline error
message whatever the body; a success response without a JSON content type whose
body starts with `<!DOCTYPE` or `<html` redirects to the login page; and a body
that fails to parse, in either success branch, redirects when the message of
the `SyntaxError` contains `Unexpected token` and gives the inline error
message otherwise. -/
theorem loadAndDisplayGroups_error_branches (parse : String → Except String Json)
    (r : Response) :
    (r.ok = false → r.status ≠ 401 →
      loadAndDisplayGroups parse (FetchResult.response r)
        = [Effect.showLoading,
           Effect.consoleError (JsError.error "Network response was not ok"),
           Effect.showLoadError]) ∧
    (r.ok = true → isJsonContentType r.contentType = false →
      (startsWith r.body "<!DOCTYPE" = true ∨ startsWith r.body "<html" = true) →
      loadAndDisplayGroups parse (FetchResult.response r)
        = [Effect.showLoading, Effect.redirectToLogin]) ∧
    (∀ msg : String, r.ok = true →
      (isJsonContentType r.contentType = true ∨
        (startsWith r.body "<!DOCTYPE" = false ∧ startsWith r.body "<html" = false)) →
      parse r.body = Except.error msg →
      loadAndDisplayGroups parse (FetchResult.response r)
        = [Effect.showLoading, Effect.consoleError (JsError.jsonSyntaxError msg),
           if includes msg "Unexpected token" then Effect.redirectToLogin
           else Effect.showLoadError]) := by
  refine ⟨fun hok h401 => ?_, fun hok hct hhtml => ?_, fun msg hok hbranch hparse => ?_⟩
  · simp [loadAndDisplayGroups, onResponse, hok, h401, onError]
  · have hor : (startsWith r.body "<!DOCTYPE" || startsWith r.body "<html") = true := by
      rcases hhtml with h | h
      · simp [h]
      · simp [h]
    simp [loadAndDisplayGroups, onResponse, hok, hct, hor, onGroups]
  · have hfirst : onResponse parse r = ([], Except.error (JsError.jsonSyntaxError msg)) := by
      rcases hbranch with hct | ⟨h1, h2⟩
      · simp [onResponse, hok, hct, parseJson, hparse]
      · by_cases hct : isJsonContentType r.contentType = true
        · simp [onResponse, hok, hct, parseJson, hparse]
        · simp [onResponse, hok, hct, h1, h2, parseJson, hparse]
    simp only [loadAndDisplayGroups, hfirst, onError, List.nil_append]
    by_cases hinc : includes msg "Unexpected token" = true
    · simp [hinc]
    · simp [hinc]

/-- The amended C11 at a status-500 page, at the login page served with status
200, and at a success response with an empty body. -/
theorem loadAndDisplayGroups_error_branches_witness :
    loadAndDisplayGroups chromeParse (FetchResult.response errorPage500)
      = [Effect.showLoading,
         Effect.consoleError (JsError.error "Network response was not ok"),
         Effect.showLoadError] ∧
    loadAndDisplayGroups chromeParse (FetchResult.response loginPage200)
      = [Effect.showLoading, Effect.redirectToLogin] ∧
    loadAndDisplayGroups chromeParse (FetchResult.response emptyBody200)
      = [Effect.showLoading,
         Effect.consoleError (JsError.jsonSyntaxError "Unexpected end of JSON input"),
         if includes "Unexpected end of JSON input" "Unexpected token" then
           Effect.redirectToLogin
         else Effect.showLoadError] :=
  ⟨(loadAndDisplayGroups_error_branches chromeParse errorPage500).1 (by decide) (by decide),
   (loadAndDisplayGroups_error_branches chromeParse loginPage200).2.1
      (by decide) (by decide) (Or.inl (by decide)),
   (loadAndDisplayGroups_error_branches chromeParse emptyBody200).2.2
      "Unexpected end of JSON input" (by decide) (Or.inl (by decide)) rfl⟩

/-! ## The three-way branch in the other callers -/

theorem redirect_not_mem_joinOnData (groupId : String) (data : JsonValue) :
    Effect.redirectToLogin ∉ joinOnData groupId data := by
  unfold joinOnData
  split <;> simp

theorem redirect_mem_joinOnError (e : JsError) :
    Effect.redirectToLogin ∈ joinOnError e ↔ Effect.redirectToLogin ∈ onError e := by
  unfold joinOnError onError
  cases e with
  | error m => simp
  | typeError m => simp
  | jsonSyntaxError m =>
    by_cases h : includes m "Unexpected token" = true
    · simp [h]
    · simp [h]

theorem redirect_not_mem_onGroups (groups : Json) :
    Effect.redirectToLogin ∉ (onGroups groups).1 ∧
    (∀ e, (onGroups groups).2 = Except.error e → Effect.redirectToLogin ∉ onError e) := by
  unfold onGroups
  split
  · simp
  · split
    · refine ⟨by simp, ?_⟩
      intro e he
      simp only [Except.error.injEq] at he
      subst he
      simp [onError]
    · simp

theorem redirect_not_mem_recommendOnError (e : JsError) :
    Effect.redirectToLogin ∉ recommendOnError e := by
  unfold recommendOnError
  cases e with
  | error m => simp
  | typeError m => simp
  | jsonSyntaxError m =>
    by_cases h : includes m "Unexpected token" = true
    · simp [h]
    · simp [h]

theorem redirect_not_mem_recommendOnData (data : JsonValue) :
    Effect.redirectToLogin ∉ (recommendOnData data).1 := by
  unfold recommendOnData
  split
  · split <;> simp
  · simp

theorem redirect_not_mem_recommendOnResponse (parse : String → Except String JsonValue)
    (r : Response) : Effect.redirectToLogin ∉ (recommendOnResponse parse r).1 := by
  unfold recommendOnResponse
  simp only []
  split
  · split <;> simp
  · split
    · simp
    · split <;> simp

/-- The join call redirects for exactly the responses the browse fetch
redirects for. -/
theorem join_redirect_iff_browse (parse : String → Except String JsonValue)
    (userId : Option String) (groupId : String) (r : Response) :
    Effect.redirectToLogin ∈ joinGroupBackend parse userId groupId (FetchResult.response r)
      ↔ Effect.redirectToLogin
          ∈ loadAndDisplayGroups (browseParse parse) (FetchResult.response r) := by
  have hbody : ∀ text : String,
      (Effect.redirectToLogin ∈
        (match (([] : List Effect), parseJsonValue parse text) with
          | (eff1, Except.error e) => eff1 ++ joinOnError e
          | (eff1, Except.ok data) => eff1 ++ joinOnData groupId data))
      ↔ (Effect.redirectToLogin ∈
        (match (([] : List Effect), parseJson (browseParse parse) text) with
          | (eff1, Except.error e) => eff1 ++ onError e
          | (eff1, Except.ok groups) =>
            match onGroups groups with
            | (eff2, Except.error e) => eff1 ++ eff2 ++ onError e
            | (eff2, Except.ok _) => eff1 ++ eff2)) := by
    intro text
    unfold parseJsonValue parseJson browseParse
    cases hp : parse text with
    | error msg =>
      simp only [List.nil_append]
      exact redirect_mem_joinOnError _
    | ok v =>
      simp only [List.nil_append]
      have h1 := redirect_not_mem_joinOnData groupId v
      have h2 := redirect_not_mem_onGroups v.toJson
      constructor
      · intro h
        exact absurd h h1
      · intro h
        exfalso
        rcases hg : onGroups v.toJson with ⟨eff2, res⟩
        rw [hg] at h h2
        cases res with
        | error e =>
          simp only [List.mem_append] at h
          rcases h with h | h
          · exact h2.1 h
          · exact h2.2 e rfl h
        | ok u => exact h2.1 h
  unfold joinGroupBackend loadAndDisplayGroups joinOnResponse onResponse
  simp only [List.mem_cons, reduceCtorEq, false_or]
  by_cases hok : r.ok = true
  · by_cases hct : isJsonContentType r.contentType = true
    · simp only [hok, hct, Bool.not_true, Bool.false_eq_true, if_false, if_true]
      exact hbody r.body
    · by_cases hhtml : (startsWith r.body "<!DOCTYPE" || startsWith r.body "<html") = true
      · simp [hok, hct, hhtml, joinOnData, dataError, notAuthenticated, onGroups]
      · simp only [hok, hct, hhtml, Bool.not_true, Bool.false_eq_true, if_false]
        exact hbody r.body
  · by_cases h401 : r.status = 401
    · simp [hok, h401, joinOnData, dataError, notAuthenticated, onGroups]
    · simp [hok, h401, joinOnError, onError]

theorem redirect_not_mem_generateAIRecommendations
    (parse : String → Except String JsonValue) (result : FetchResult) :
    Effect.redirectToLogin ∉ generateAIRecommendations parse result := by
  unfold generateAIRecommendations
  cases result with
  | failed => exact redirect_not_mem_recommendOnError _
  | response r =>
    have h1 := redirect_not_mem_recommendOnResponse parse r
    rcases hr : recommendOnResponse parse r with ⟨eff1, res⟩
    rw [hr] at h1
    simp only [hr]
    cases res with
    | error e =>
      simp only [List.mem_append, not_or]
      exact ⟨h1, redirect_not_mem_recommendOnError e⟩
    | ok data =>
      have h2 := redirect_not_mem_recommendOnData data
      rcases hd : recommendOnData data with ⟨eff2, res2⟩
      rw [hd] at h2
      simp only [hd]
      cases res2 with
      | error e =>
        simp only [List.mem_append, not_or]
        exact ⟨⟨h1, h2⟩, redirect_not_mem_recommendOnError e⟩
      | ok u =>
        simp only [List.mem_append, not_or]
        exact ⟨h1, h2⟩

/-- C12 (as stated, refuted): on a status-401 answer and on the login page
served with status 200 the browse fetch redirects to the login page, while the
recommendations call shows its notice and an empty list, the my-groups fetch
shows its error message and the delete call alerts an error; none of the three
redirects. -/
theorem callers_do_not_branch_identically :
    (loadAndDisplayGroups (browseParse chromeParseValue) (FetchResult.response unauthorized401)
        = [Effect.showLoading, Effect.redirectToLogin] ∧
      generateAIRecommendations chromeParseValue (FetchResult.response unauthorized401)
        = [Effect.showRecommendationNotice, Effect.displayAIRecommendations (Json.groups [])] ∧
      fetchMyGroups chromeParseValue (FetchResult.response unauthorized401)
        = [Effect.storeAllGroups (Json.other false), Effect.displayMyGroups (Json.other false),
           Effect.consoleError (JsError.typeError "groups.forEach is not a function"),
           Effect.showMyGroupsError] ∧
      deleteGroup chromeParseValue true "7" (FetchResult.response unauthorized401)
        = [Effect.alert "Error deleting group: undefined"]) ∧
    (loadAndDisplayGroups (browseParse chromeParseValue) (FetchResult.response loginPage200)
        = [Effect.showLoading, Effect.redirectToLogin] ∧
      generateAIRecommendations chromeParseValue (FetchResult.response loginPage200)
        = [Effect.showRecommendationNotice, Effect.displayAIRecommendations (Json.groups [])] ∧
      fetchMyGroups chromeParseValue (FetchResult.response loginPage200)
        = [Effect.consoleError
             (JsError.jsonSyntaxError "Unexpected token < in JSON at position 0"),
           Effect.showMyGroupsError] ∧
      deleteGroup chromeParseValue true "7" (FetchResult.response loginPage200)
        = [Effect.consoleError
             (JsError.jsonSyntaxError "Unexpected token < in JSON at position 0"),
           Effect.alert "Error deleting group"]) := by
  refine ⟨⟨by decide, by decide, by decide, by decide⟩,
    ⟨by decide, by decide, by decide, by decide⟩⟩

/-- C12 (amended): the join call redirects to the login page for exactly the
responses for which the browse fetch does, and on status 401 and on an HTML
page it redirects and alerts `Not authenticated`; the recommendations call
never redirects, and on status 401 and on an HTML page it writes its notice and
renders an empty recommendation list. -/
theorem join_branches_like_browse_recommendations_never_redirect
    (parse : String → Except String JsonValue) (userId : Option String) (groupId : String)
    (r : Response) :
    (Effect.redirectToLogin ∈ joinGroupBackend parse userId groupId (FetchResult.response r)
      ↔ Effect.redirectToLogin
          ∈ loadAndDisplayGroups (browseParse parse) (FetchResult.response r)) ∧
    (r.status = 401 →
      joinGroupBackend parse userId groupId (FetchResult.response r)
        = [Effect.redirectToLogin, Effect.alert "Error joining group: Not authenticated"]) ∧
    (r.ok = true → isJsonContentType r.contentType = false →
      (startsWith r.body "<!DOCTYPE" = true ∨ startsWith r.body "<html" = true) →
      joinGroupBackend parse userId groupId (FetchResult.response r)
        = [Effect.redirectToLogin, Effect.alert "Error joining group: Not authenticated"]) ∧
    (∀ result : FetchResult,
      Effect.redirectToLogin ∉ generateAIRecommendations parse result) ∧
    (r.status = 401 →
      generateAIRecommendations parse (FetchResult.response r)
        = [Effect.showRecommendationNotice,
           Effect.displayAIRecommendations (Json.groups [])]) ∧
    (r.ok = true → isJsonContentType r.contentType = false →
      (startsWith r.body "<!DOCTYPE" = true ∨ startsWith r.body "<html" = true) →
      generateAIRecommendations parse (FetchResult.response r)
        = [Effect.showRecommendationNotice,
           Effect.displayAIRecommendations (Json.groups [])]) := by
  have hnotok : r.status = 401 → r.ok = false := by
    intro h
    unfold Response.ok
    rw [h]
    decide
  have hor : (startsWith r.body "<!DOCTYPE" = true ∨ startsWith r.body "<html" = true) →
      (startsWith r.body "<!DOCTYPE" || startsWith r.body "<html") = true := by
    intro h
    rcases h with h | h
    · simp [h]
    · simp [h]
  refine ⟨join_redirect_iff_browse parse userId groupId r, ?_, ?_,
    redirect_not_mem_generateAIRecommendations parse, ?_, ?_⟩
  · intro h401
    simp [joinGroupBackend, joinOnResponse, hnotok h401, h401, joinOnData, dataError,
      notAuthenticated]
  · intro hok hct hhtml
    simp [joinGroupBackend, joinOnResponse, hok, hct, hor hhtml, joinOnData, dataError,
      notAuthenticated]
  · intro h401
    simp [generateAIRecommendations, recommendOnResponse, hnotok h401, h401, recommendOnData,
      dataMatchedGroups]
  · intro hok hct hhtml
    simp [generateAIRecommendations, recommendOnResponse, hok, hct, hor hhtml,
      recommendOnData, dataMatchedGroups]

/-- The amended C12 at a status-401 answer to the join of group `7`. -/
theorem join_branches_like_browse_recommendations_never_redirect_witness :
    unauthorized401.status = 401 ∧
    joinGroupBackend chromeParseValue none "7" (FetchResult.response unauthorized401)
      = [Effect.redirectToLogin, Effect.alert "Error joining group: Not authenticated"] ∧
    generateAIRecommendations chromeParseValue (FetchResult.response unauthorized401)
      = [Effect.showRecommendationNotice, Effect.displayAIRecommendations (Json.groups [])] :=
  ⟨rfl,
   (join_branches_like_browse_recommendations_never_redirect chromeParseValue none "7"
      unauthorized401).2.1 rfl,
   (join_branches_like_browse_recommendations_never_redirect chromeParseValue none "7"
      unauthorized401).2.2.2.2.1 rfl⟩

/-! ## Local search of the my-groups page -/

theorem searchCallback_of_namesAreText (lower : String → String) (term : String) (g : Group)
    (h : MyGroups.namesAreText g = true) :
    MyGroups.searchCallback lower term g = Except.ok (MyGroups.keeps lower term g) := by
  unfold MyGroups.namesAreText at h
  unfold MyGroups.keeps MyGroups.searchCallback
  cases hs : MyGroups.getFriendlySubjectName g.subject with
  | inherited k => simp [hs] at h
  | text s =>
    cases hg : MyGroups.getFriendlyGoalName g.goal with
    | inherited k => simp [hs, hg] at h
    | text t => simp [MyGroups.toLowerCase]

theorem filterGroups_eq_filter (keep : Group → Except JsError Bool) (p : Group → Bool)
    (l : List Group) (h : ∀ g ∈ l, keep g = Except.ok (p g)) :
    MyGroups.filterGroups keep l = Except.ok (l.filter p) := by
  induction l with
  | nil => rfl
  | cons g rest ih =>
    have hg := h g (List.mem_cons_self g rest)
    have hrest := ih (fun x hx => h x (List.mem_cons_of_mem g hx))
    unfold MyGroups.filterGroups
    rw [hg, hrest]
    cases hp : p g <;> simp [List.filter_cons, hp]

/-- When no friendly name is an inherited value the search does not raise: it
hands the groups its filter keeps, sorted, to the renderer. -/
theorem performSearch_eq (lower : String → String) (allGroups : List Group) (term : String)
    (hnames : ∀ g ∈ allGroups, MyGroups.namesAreText g = true) :
    MyGroups.performSearch lower allGroups term
      = Except.ok (sortBy MyGroups.byCreatedDesc
          (allGroups.filter (MyGroups.keeps lower term))) := by
  unfold MyGroups.performSearch
  rw [filterGroups_eq_filter _ (MyGroups.keeps lower term) allGroups
    (fun g hg => searchCallback_of_namesAreText lower term g (hnames g hg))]

/-- Inserting into a list in descending key order keeps it so, when the
comparator is the difference of the keys. -/
theorem insertBy_pairwise_key {α : Type} (cmp : α → α → Int) (key : α → Int) (a : α)
    (l : List α) (hcmp : ∀ b ∈ l, cmp a b = key b - key a)
    (h : l.Pairwise (fun x y => key y ≤ key x)) :
    (insertBy cmp a l).Pairwise (fun x y => key y ≤ key x) := by
  induction l with
  | nil => simp [insertBy]
  | cons b l ih =>
    have hb : ∀ y ∈ l, key y ≤ key b := (List.pairwise_cons.mp h).1
    have hl := List.Pairwise.of_cons h
    have hab := hcmp b (List.mem_cons_self b l)
    unfold insertBy
    split
    · rename_i hle
      have hba : key b ≤ key a := by omega
      refine List.Pairwise.cons ?_ h
      intro y hy
      rcases List.mem_cons.mp hy with rfl | hy
      · exact hba
      · exact le_trans (hb y hy) hba
    · rename_i hgt
      have hlt : key a ≤ key b := by omega
      refine List.Pairwise.cons ?_ (ih (fun x hx => hcmp x (List.mem_cons_of_mem b hx)) hl)
      intro y hy
      rcases List.mem_cons.mp ((insertBy_perm cmp a l).mem_iff.mp hy) with rfl | hy
      · exact hlt
      · exact hb y hy

theorem sortBy_pairwise_key {α : Type} (cmp : α → α → Int) (key : α → Int) (l : List α)
    (hcmp : ∀ a ∈ l, ∀ b ∈ l, cmp a b = key b - key a) :
    (sortBy cmp l).Pairwise (fun x y => key y ≤ key x) := by
  induction l with
  | nil => simp [sortBy]
  | cons a l ih =>
    unfold sortBy
    apply insertBy_pairwise_key
    · intro b hb
      exact hcmp a (List.mem_cons_self a l) b
        (List.mem_cons_of_mem a ((mem_sortBy cmp l b).mp hb))
    · exact ih (fun x hx y hy =>
        hcmp x (List.mem_cons_of_mem a hx) y (List.mem_cons_of_mem a hy))

theorem byCreatedDesc_of_valid (a b : Group) (ha : a.created_at ≠ none)
    (hb : b.created_at ≠ none) :
    MyGroups.byCreatedDesc a b = MyGroups.createdKey b - MyGroups.createdKey a := by
  unfold MyGroups.byCreatedDesc MyGroups.createdKey
  cases hx : a.created_at with
  | none => exact absurd hx ha
  | some x =>
    cases hy : b.created_at with
    | none => exact absurd hy hb
    | some y => simp

/-- When no friendly name is an inherited value and the creation times are
valid, the search result is in descending order of creation time and is a
permutation of the groups its filter keeps. -/
theorem performSearch_sorted (lower : String → String) (allGroups : List Group)
    (term : String)
    (hnames : ∀ g ∈ allGroups, MyGroups.namesAreText g = true)
    (hvalid : ∀ g ∈ allGroups, g.created_at ≠ none) :
    ∃ shown : List Group,
      MyGroups.performSearch lower allGroups term = Except.ok shown ∧
      shown.Pairwise (fun a b =>
        ∃ x y : Int, a.created_at = some x ∧ b.created_at = some y ∧ y ≤ x) ∧
      shown.Perm (allGroups.filter (MyGroups.keeps lower term)) := by
  refine ⟨_, performSearch_eq lower allGroups term hnames, ?_, sortBy_perm _ _⟩
  have hmem : ∀ g ∈ allGroups.filter (MyGroups.keeps lower term),
      g.created_at ≠ none := fun g hg => hvalid g (List.mem_of_mem_filter hg)
  have hkey := sortBy_pairwise_key MyGroups.byCreatedDesc MyGroups.createdKey
    (allGroups.filter (MyGroups.keeps lower term))
    (fun a ha b hb => byCreatedDesc_of_valid a b (hmem a ha) (hmem b hb))
  have hvalid2 : ∀ g ∈ sortBy MyGroups.byCreatedDesc
      (allGroups.filter (MyGroups.keeps lower term)), g.created_at ≠ none :=
    fun g hg => hmem g ((mem_sortBy _ _ g).mp hg)
  refine (List.Pairwise.and_mem.mp hkey).imp ?_
  intro a b hab
  obtain ⟨ha, hb, hle⟩ := hab
  obtain ⟨x, hx⟩ := Option.ne_none_iff_exists'.mp (hvalid2 a ha)
  obtain ⟨y, hy⟩ := Option.ne_none_iff_exists'.mp (hvalid2 b hb)
  refine ⟨x, y, hx, hy, ?_⟩
  unfold MyGroups.createdKey at hle
  rw [hx, hy] at hle
  simpa using hle

/-- C13 (evaluation at the failing input): the friendly subject name of a group
on `eng101` is `English Literature`, which contains `english` when both are
lower-cased, so the search as specified keeps the group; `performSearch` and
the click handler drop it, because the name helper of `my-groups.js` returns
the raw code `eng101`.  On a group whose subject code is `constructor` the
search raises and displays nothing.  On codes of the four-entry tables the
search keeps what the spec says. -/
theorem performSearch_drops_english_group :
    formatSubjectName asciiUpper "eng101" = NameResult.text "English Literature" ∧
    MyGroups.getFriendlySubjectName "eng101" = NameResult.text "eng101" ∧
    specMatches asciiUpper MyGroups.asciiLower "english" englishGroup = true ∧
    MyGroups.performSearch MyGroups.asciiLower [englishGroup] "english" = Except.ok [] ∧
    MyGroups.onSearch MyGroups.asciiLower id [englishGroup] "English" = Except.ok [] ∧
    specMatches asciiUpper MyGroups.asciiLower "help" englishGroup = true ∧
    MyGroups.performSearch MyGroups.asciiLower [englishGroup] "help" = Except.ok [] ∧
    MyGroups.performSearch MyGroups.asciiLower [constructorGroup] "math"
      = Except.error (JsError.typeError "toLowerCase is not a function") ∧
    specMatches asciiUpper MyGroups.asciiLower "math" constructorGroup = true ∧
    (MyGroups.performSearch MyGroups.asciiLower MyGroups.sampleGroups "math").map
        (fun l => l.map (fun g => g.id))
      = Except.ok ["G3", "G1"] ∧
    (MyGroups.sampleGroups.filter (specMatches asciiUpper MyGroups.asciiLower "math")).map
        (fun g => g.id)
      = ["G1", "G3"] := by
  refine ⟨by decide, by decide, by decide, rfl, rfl, by decide, rfl, rfl, by decide, rfl,
    by decide⟩

/-- C14 (evaluation at the failing input): every group of the cache has a valid
creation time, but one has the subject code `constructor`, for which the name
helper returns an inherited function; the search for `math` then raises while
filtering, wherever that group stands in the cache, and hands nothing to the
renderer.  Without that group the two matching groups are shown newest
first. -/
theorem performSearch_raises_on_inherited_name :
    (∀ g ∈ MyGroups.sampleGroups ++ [constructorGroup], g.created_at ≠ none) ∧
    MyGroups.getFriendlySubjectName "constructor" = NameResult.inherited "constructor" ∧
    MyGroups.performSearch MyGroups.asciiLower (MyGroups.sampleGroups ++ [constructorGroup])
        "math"
      = Except.error (JsError.typeError "toLowerCase is not a function") ∧
    MyGroups.performSearch MyGroups.asciiLower (constructorGroup :: MyGroups.sampleGroups)
        "math"
      = Except.error (JsError.typeError "toLowerCase is not a function") ∧
    MyGroups.onSearch MyGroups.asciiLower id (MyGroups.sampleGroups ++ [constructorGroup])
        "Math"
      = Except.error (JsError.typeError "toLowerCase is not a function") ∧
    (MyGroups.performSearch MyGroups.asciiLower MyGroups.sampleGroups "math").map
        (fun l => l.map (fun g => (g.id, g.created_at)))
      = Except.ok [("G3", some 3000), ("G1", some 1000)] := by
  refine ⟨by decide, by decide, rfl, rfl, rfl, rfl⟩

/-! ## Join control -/

/-- C15 (evaluation at the failing input): for a group with a free seat whose
id is `a"b` the browse card's button is written with the id unescaped, so its
`data-groupid` attribute ends at the quote and reads `a`, which is what the
click handler passes to `joinGroup`; the recommendation card's `onclick`
attribute ends at the same quote and reads `joinGroup('a`.  For the id `1` the
attribute reads `1` and the handler is `joinGroup('1'); return false;`, and a
full group gets the disabled `Group Full` button. -/
theorem join_button_markup_breaks_on_quote :
    quoteGroup.current_members < quoteGroup.max_members ∧
    browseButtonHtml quoteGroup
      = "<button class=\"btn join-btn\" data-groupid=\"a\"b\" >Join This Group</button>" ∧
    quotedValue (browseButtonHtml quoteGroup) "data-groupid=\"" = some "a" ∧
    some quoteGroup.id ≠ quotedValue (browseButtonHtml quoteGroup) "data-groupid=\"" ∧
    recommendationButtonHtml quoteGroup
      = "<button class=\"btn\" onclick=\"joinGroup('a\"b'); return false;\">Join Group</button>" ∧
    quotedValue (recommendationButtonHtml quoteGroup) "onclick=\"" = some "joinGroup('a" ∧
    browseButtonHtml exampleGroup1
      = "<button class=\"btn join-btn\" data-groupid=\"1\" >Join This Group</button>" ∧
    quotedValue (browseButtonHtml exampleGroup1) "data-groupid=\"" = some "1" ∧
    quotedValue (recommendationButtonHtml exampleGroup1) "onclick=\""
      = some "joinGroup('1'); return false;" ∧
    browseButtonHtml exampleGroup2
      = "<button class=\"btn join-btn disabled\" data-groupid=\"2\" disabled>Group Full</button>" ∧
    recommendationButtonHtml exampleGroup2
      = "<button class=\"btn disabled\" disabled>Group Full</button>" := by
  decide

/-! ## Create-group form -/

/-- C16: if any of subject, goal, date, time or location is empty the submit
handler alerts `Please fill in all required fields` and makes no network call;
it makes a network call, the request for `/api/user`, exactly when all five are
non-empty. -/
theorem onSubmit_validates_before_network (form : CreateForm) :
    ((form.subject = "" ∨ form.goal = "" ∨ form.date = "" ∨ form.time = ""
        ∨ form.location = "") →
      onSubmit form
          = [SubmitEffect.preventDefault,
             SubmitEffect.alert "Please fill in all required fields"] ∧
      ∀ e ∈ onSubmit form, e.isNetworkCall = false) ∧
    ((∃ e ∈ onSubmit form, e.isNetworkCall = true) ↔
      (form.subject ≠ "" ∧ form.goal ≠ "" ∧ form.date ≠ "" ∧ form.time ≠ ""
        ∧ form.location ≠ "")) ∧
    ((form.subject ≠ "" ∧ form.goal ≠ "" ∧ form.date ≠ "" ∧ form.time ≠ ""
        ∧ form.location ≠ "") →
      onSubmit form = [SubmitEffect.preventDefault, SubmitEffect.fetch "/api/user"]) ∧
    onSubmit filledForm = [SubmitEffect.preventDefault, SubmitEffect.fetch "/api/user"] ∧
    onSubmit { filledForm with location := "" }
      = [SubmitEffect.preventDefault,
         SubmitEffect.alert "Please fill in all required fields"] := by
  by_cases h : form.subject = "" ∨ form.goal = "" ∨ form.date = "" ∨ form.time = ""
      ∨ form.location = ""
  · have hs : onSubmit form
        = [SubmitEffect.preventDefault,
           SubmitEffect.alert "Please fill in all required fields"] := by
      unfold onSubmit
      simp only [h, if_true]
    refine ⟨fun _ => ⟨hs, ?_⟩, ?_, ?_, by decide, by decide⟩
    · rw [hs]
      intro e he
      simp only [List.mem_cons, List.mem_singleton, List.not_mem_nil, or_false] at he
      rcases he with rfl | rfl <;> rfl
    · rw [hs]
      constructor
      · rintro ⟨e, he, hn⟩
        simp only [List.mem_cons, List.mem_singleton, List.not_mem_nil, or_false] at he
        rcases he with rfl | rfl <;> simp [SubmitEffect.isNetworkCall] at hn
      · intro hall
        exfalso
        rcases h with h | h | h | h | h
        · exact hall.1 h
        · exact hall.2.1 h
        · exact hall.2.2.1 h
        · exact hall.2.2.2.1 h
        · exact hall.2.2.2.2 h
    · intro hall
      exfalso
      rcases h with h | h | h | h | h
      · exact hall.1 h
      · exact hall.2.1 h
      · exact hall.2.2.1 h
      · exact hall.2.2.2.1 h
      · exact hall.2.2.2.2 h
  · have hs : onSubmit form
        = [SubmitEffect.preventDefault, SubmitEffect.fetch "/api/user"] := by
      unfold onSubmit
      simp only [h, if_false]
    have hall : form.subject ≠ "" ∧ form.goal ≠ "" ∧ form.date ≠ "" ∧ form.time ≠ ""
        ∧ form.location ≠ "" := by
      simp only [not_or] at h
      exact h
    refine ⟨fun hany => absurd hany h, ?_, fun _ => hs, by decide, by decide⟩
    rw [hs]
    constructor
    · intro _
      exact hall
    · intro _
      exact ⟨SubmitEffect.fetch "/api/user", by simp, rfl⟩

/-! ## Name helpers of the two pages -/

/-- C17 (evaluation at the failing input): for the subject code `eng101` and
the goal code `assignment` the helpers of `my-groups.js` return the raw code
while the resolvers of `find.js` return `English Literature` and
`Assignment Help`; for the unknown code `dataScience` they return the raw code
against `Data Science`; on the codes both tables hold, such as `math101` and
`midterm`, they agree. -/
theorem myGroups_names_differ_from_browse :
    MyGroups.getFriendlySubjectName "eng101" = NameResult.text "eng101" ∧
    formatSubjectName asciiUpper "eng101" = NameResult.text "English Literature" ∧
    getFriendlySubjectName asciiUpper "eng101" = NameResult.text "English Literature" ∧
    MyGroups.getFriendlyGoalName "assignment" = NameResult.text "assignment" ∧
    formatGoalName asciiUpper "assignment" = NameResult.text "Assignment Help" ∧
    MyGroups.getFriendlySubjectName "dataScience" = NameResult.text "dataScience" ∧
    formatSubjectName asciiUpper "dataScience" = NameResult.text "Data Science" ∧
    MyGroups.getFriendlySubjectName "math101" = formatSubjectName asciiUpper "math101" ∧
    MyGroups.getFriendlyGoalName "midterm" = formatGoalName asciiUpper "midterm" := by
  decide

end StudyGroup
